import Mathlib

/-!
Verification of the scantailor-universal interaction/zone editing core.

Shallow embedding of the C++ sources:
* `Margins.h` (margins with auto-margins backup),
* `Alignment.cpp` (XML serialization of page-layout alignment),
* `RasterOpGeneric.h` (grid batch operations with size guards),
* `ColorPickupInteraction.cpp` (bit-mixing median color pickup),
* `ZoneDefaultInteraction.cpp` (proximity claims, paste, handler hand-off).

Machine doubles that are only stored, copied and compared (never rounded)
are modelled as rationals; 32-bit unsigned values are modelled as `Nat`
with explicit masking where the code masks.  Classes whose sources are not
part of the excerpt (`InteractionState`, `Proximity`, `DragWatcher`,
`EditableZoneSet`) are modelled from the specification and marked as such
in their doc comments.
-/

/- ===================== Margins.h ===================== -/

/-- Embedding of class `Margins` (Margins.h): four double fields, modelled
as rationals since the code only stores, copies and compares them. -/
structure Margins where
  top : ℚ
  bottom : ℚ
  left : ℚ
  right : ℚ
deriving DecidableEq, Repr

/-- Embedding of `Margins::setTop`. -/
def Margins.setTop (m : Margins) (v : ℚ) : Margins := { m with top := v }

/-- Embedding of `Margins::setBottom`. -/
def Margins.setBottom (m : Margins) (v : ℚ) : Margins := { m with bottom := v }

/-- Embedding of `Margins::setLeft`. -/
def Margins.setLeft (m : Margins) (v : ℚ) : Margins := { m with left := v }

/-- Embedding of `Margins::setRight`. -/
def Margins.setRight (m : Margins) (v : ℚ) : Margins := { m with right := v }

/-- Embedding of class `MarginsWithAuto` (Margins.h): the `Margins` base
subobject plus the `m_backuppedData` shared pointer, modelled as an
`Option` (null pointer = `none`). -/
structure MarginsWithAuto where
  margins : Margins
  backuppedData : Option Margins
deriving DecidableEq, Repr

/-- Embedding of `MarginsWithAuto::isAutoMarginsEnabled`:
`m_backuppedData.get() != nullptr`. -/
def MarginsWithAuto.isAutoMarginsEnabled (m : MarginsWithAuto) : Bool :=
  m.backuppedData.isSome

/-- Embedding of `MarginsWithAuto::backupValues`: if no backup exists,
store a copy of the current base `Margins`. -/
def MarginsWithAuto.backupValues (m : MarginsWithAuto) : MarginsWithAuto :=
  if m.backuppedData.isNone then { m with backuppedData := some m.margins } else m

/-- Embedding of `MarginsWithAuto::restoreValues`: if a backup exists,
copy it back into the base `Margins` and drop it. -/
def MarginsWithAuto.restoreValues (m : MarginsWithAuto) : MarginsWithAuto :=
  match m.backuppedData with
  | some b => { margins := b, backuppedData := none }
  | none => m

/-- Embedding of `MarginsWithAuto::setAutoMargins`. -/
def MarginsWithAuto.setAutoMargins (m : MarginsWithAuto) (state : Bool) : MarginsWithAuto :=
  if state && m.backuppedData.isNone then m.backupValues
  else if !state && m.backuppedData.isSome then m.restoreValues
  else m

/-- Embedding of `MarginsWithAuto::operator=(Margins)`: copies the base
subobject, leaving `m_backuppedData` untouched (see the source comment
"copy all except autoMargins state and backup data"). -/
def MarginsWithAuto.assignMargins (m : MarginsWithAuto) (rhs : Margins) : MarginsWithAuto :=
  { m with margins := rhs }

/-- One call to an inherited `Margins` setter on a `MarginsWithAuto`
object (the setters act on the base subobject). -/
inductive MarginOp where
  | setTop (v : ℚ)
  | setBottom (v : ℚ)
  | setLeft (v : ℚ)
  | setRight (v : ℚ)
deriving DecidableEq, Repr

/-- Effect of one inherited setter call on a `MarginsWithAuto`. -/
def MarginsWithAuto.applyOp (m : MarginsWithAuto) (op : MarginOp) : MarginsWithAuto :=
  match op with
  | .setTop v => { m with margins := m.margins.setTop v }
  | .setBottom v => { m with margins := m.margins.setBottom v }
  | .setLeft v => { m with margins := m.margins.setLeft v }
  | .setRight v => { m with margins := m.margins.setRight v }

/-- Effect of a sequence of inherited setter calls. -/
def MarginsWithAuto.applyOps (m : MarginsWithAuto) (ops : List MarginOp) : MarginsWithAuto :=
  ops.foldl MarginsWithAuto.applyOp m

theorem MarginsWithAuto.applyOps_backuppedData (m : MarginsWithAuto) (ops : List MarginOp) :
    (m.applyOps ops).backuppedData = m.backuppedData := by
  induction ops generalizing m with
  | nil => rfl
  | cons op ops ih =>
      rw [MarginsWithAuto.applyOps, List.foldl_cons]
      have h := ih (m.applyOp op)
      rw [MarginsWithAuto.applyOps] at h
      rw [h]
      cases op <;> rfl

/- ===================== Alignment.cpp ===================== -/

namespace page_layout

/-- Embedding of enum `Alignment::Vertical`. -/
inductive Vertical where
  | TOP
  | VCENTER
  | BOTTOM
  | VAUTO
  | VORIGINAL
deriving DecidableEq, Repr

/-- Embedding of enum `Alignment::Horizontal`. -/
inductive Horizontal where
  | LEFT
  | HCENTER
  | RIGHT
  | HAUTO
  | HORIGINAL
deriving DecidableEq, Repr

/-- Embedding of class `Alignment` (the four fields the XML round-trip
claim concerns; `m_tolerance` carries a double formatted through
`QString::number` and is outside this embedding). -/
structure Alignment where
  vert : Vertical
  hor : Horizontal
  isNull : Bool
  autoMargins : Bool
deriving DecidableEq, Repr

/-- Model of the `QDomElement` produced by `Alignment::toXml`: the four
attributes relevant to the round-trip ("null" is written as an int). -/
structure AlignmentXmlEl where
  vert : String
  hor : String
  nullAttr : Int
  autoMargins : String
deriving DecidableEq, Repr

/-- Embedding of `Alignment::toXml` (Alignment.cpp lines 84-132). -/
def Alignment.toXml (a : Alignment) : AlignmentXmlEl :=
  let vert : String :=
    match a.vert with
    | .TOP => "top"
    | .VCENTER => "vcenter"
    | .BOTTOM => "bottom"
    | .VAUTO => "auto"
    | .VORIGINAL => "original"
  let hor : String :=
    match a.hor with
    | .LEFT => "left"
    | .HCENTER => "hcenter"
    | .RIGHT => "right"
    | .HAUTO => "auto"
    | .HORIGINAL => "original"
  { vert := vert
    hor := hor
    nullAttr := if a.isNull then 1 else 0
    autoMargins := if a.autoMargins then "true" else "false" }

/-- Embedding of the constructor `Alignment::Alignment(QDomElement const&)`
(Alignment.cpp lines 48-82).  Note the source's horizontal chain really
tests `vert == "original"` (not `hor`) in its fourth branch; the embedding
reproduces that literally. -/
def Alignment.fromXml (el : AlignmentXmlEl) : Alignment :=
  let vert := el.vert
  let hor := el.hor
  let isNull : Bool := el.nullAttr != 0
  let autoMargins : Bool := el.autoMargins == "true"
  let mvert : Vertical :=
    if vert == "top" then .TOP
    else if vert == "bottom" then .BOTTOM
    else if vert == "auto" then .VAUTO
    else if vert == "original" then .VORIGINAL
    else .VCENTER
  let mhor : Horizontal :=
    if hor == "left" then .LEFT
    else if hor == "right" then .RIGHT
    else if hor == "auto" then .HAUTO
    else if vert == "original" then .HORIGINAL
    else .HCENTER
  { vert := mvert, hor := mhor, isNull := isNull, autoMargins := autoMargins }

end page_layout

theorem MarginsWithAuto.setAutoMargins_false_of_some (x : MarginsWithAuto) (b : Margins)
    (h : x.backuppedData = some b) :
    x.setAutoMargins false = { margins := b, backuppedData := none } := by
  simp [MarginsWithAuto.setAutoMargins, MarginsWithAuto.restoreValues, h]

/-- C9: enabling auto margins backs up the four margin values; any
sequence of inherited setter calls later, disabling restores exactly the
values held at the moment of enabling; `isAutoMarginsEnabled` is true
exactly while the backup exists; assignment from a plain `Margins`
changes only the margin values, never the auto-margins state. -/
theorem marginsWithAuto_enable_edit_disable_restores
    (m : MarginsWithAuto) (ops : List MarginOp)
    (h : m.isAutoMarginsEnabled = false) :
    (((m.setAutoMargins true).applyOps ops).setAutoMargins false).margins = m.margins ∧
    (((m.setAutoMargins true).applyOps ops).setAutoMargins false).isAutoMarginsEnabled = false ∧
    ((m.setAutoMargins true).applyOps ops).isAutoMarginsEnabled = true ∧
    (m.setAutoMargins true).isAutoMarginsEnabled = true ∧
    (∀ (m' : MarginsWithAuto) (rhs : Margins),
      (m'.assignMargins rhs).margins = rhs ∧
      (m'.assignMargins rhs).isAutoMarginsEnabled = m'.isAutoMarginsEnabled) := by
  have hnone : m.backuppedData = none := by
    simpa [MarginsWithAuto.isAutoMarginsEnabled, Option.isSome_iff_exists] using h
  have henable : m.setAutoMargins true = { m with backuppedData := some m.margins } := by
    simp [MarginsWithAuto.setAutoMargins, MarginsWithAuto.backupValues, hnone]
  have hmid : ((m.setAutoMargins true).applyOps ops).backuppedData = some m.margins := by
    rw [MarginsWithAuto.applyOps_backuppedData, henable]
  have hdisable :
      ((m.setAutoMargins true).applyOps ops).setAutoMargins false =
        { margins := m.margins, backuppedData := none } :=
    MarginsWithAuto.setAutoMargins_false_of_some _ _ hmid
  refine ⟨by rw [hdisable], by rw [hdisable]; rfl, ?_, ?_, ?_⟩
  · simp [MarginsWithAuto.isAutoMarginsEnabled, hmid]
  · simp [MarginsWithAuto.isAutoMarginsEnabled, henable]
  · intro m' rhs
    exact ⟨rfl, rfl⟩

/-- Witness for C9 at a concrete input. -/
theorem marginsWithAuto_enable_edit_disable_restores_witness :
    ((⟨⟨1, 2, 3, 4⟩, none⟩ : MarginsWithAuto).isAutoMarginsEnabled = false) ∧
    ((((⟨⟨1, 2, 3, 4⟩, none⟩ : MarginsWithAuto).setAutoMargins true).applyOps
        [MarginOp.setTop 7, MarginOp.setLeft 9]).setAutoMargins false).margins =
      (⟨1, 2, 3, 4⟩ : Margins) :=
  ⟨rfl,
    (marginsWithAuto_enable_edit_disable_restores ⟨⟨1, 2, 3, 4⟩, none⟩
      [MarginOp.setTop 7, MarginOp.setLeft 9] rfl).1⟩

/-- C10: the claimed `fromXml (toXml a) = a` round-trip fails on the code:
for vertical `TOP` and horizontal `HORIGINAL` the element is written with
attribute hor = "original", but the parser's horizontal chain tests
`vert == "original"` for that branch, so the horizontal mode reads back
as `HCENTER`.  Vertical, null flag and auto-margins flag do survive. -/
theorem alignment_xml_roundtrip_fails_for_horiginal :
    (page_layout.Alignment.fromXml
        (page_layout.Alignment.toXml
          ⟨page_layout.Vertical.TOP, page_layout.Horizontal.HORIGINAL, false, false⟩)).hor =
      page_layout.Horizontal.HCENTER ∧
    (page_layout.Alignment.fromXml
        (page_layout.Alignment.toXml
          ⟨page_layout.Vertical.TOP, page_layout.Horizontal.HORIGINAL, false, false⟩)) ≠
      ⟨page_layout.Vertical.TOP, page_layout.Horizontal.HORIGINAL, false, false⟩ := by
  constructor
  · rfl
  · decide

/- ===================== RasterOpGeneric.h ===================== -/

namespace imageproc

/-- Embedding of struct `GridAccessor<T>`: logical view of a `width` x
`height` grid.  The C++ raw pointer plus `stride` describe a machine
memory layout; the logical content they address is the row list. -/
structure GridAccessor (α : Type) where
  data : List (List α)
  width : Nat
  height : Nat

/-- Well-formedness of a grid accessor: the row list really has the
advertised dimensions. -/
def GridAccessor.Wf {α : Type} (g : GridAccessor α) : Prop :=
  g.data.length = g.height ∧ ∀ row ∈ g.data, row.length = g.width

/-- Embedding of the pointer-level two-image `rasterOpGeneric` worker
(RasterOpGeneric.h lines 224-242): `operation(data1[x], data2[x])` is run
on every pixel of the common `size`, updating both cells in place.  The
pure model returns the two updated row lists. -/
def rasterOpGenericData {α β : Type} (d1 : List (List α)) (d2 : List (List β))
    (op : α → β → α × β) : List (List α) × List (List β) :=
  ((d1.zip d2).map fun rr => (rr.1.zip rr.2).map fun ab => (op ab.1 ab.2).1,
   (d1.zip d2).map fun rr => (rr.1.zip rr.2).map fun ab => (op ab.1 ab.2).2)

/-- Embedding of the two-`GridAccessor` `rasterOpGeneric` overload
(RasterOpGeneric.h lines 244-256): throw `std::invalid_argument` on a
size mismatch, otherwise delegate to the pointer-level worker. -/
def rasterOpGeneric2 {α β : Type} (grid1 : GridAccessor α) (grid2 : GridAccessor β)
    (op : α → β → α × β) : Except String (GridAccessor α × GridAccessor β) :=
  if grid1.width ≠ grid2.width ∨ grid1.height ≠ grid2.height then
    Except.error "rasterOpGeneric: size mismatch"
  else
    let r := rasterOpGenericData grid1.data grid2.data op
    Except.ok ({ grid1 with data := r.1 }, { grid2 with data := r.2 })

/-- Embedding of the pointer-level three-image `rasterOpGeneric` worker
(RasterOpGeneric.h lines 292-313). -/
def rasterOpGenericData3 {α β γ : Type} (d1 : List (List α)) (d2 : List (List β))
    (d3 : List (List γ)) (op : α → β → γ → α × β × γ) :
    List (List α) × List (List β) × List (List γ) :=
  let rows := (d1.zip (d2.zip d3)).map fun rr =>
    (rr.1.zip (rr.2.1.zip rr.2.2)).map fun ab => op ab.1 ab.2.1 ab.2.2
  (rows.map fun row => row.map fun v => v.1,
   rows.map fun row => row.map fun v => v.2.1,
   rows.map fun row => row.map fun v => v.2.2)

/-- Embedding of the three-`GridAccessor` `rasterOpGeneric` overload
(RasterOpGeneric.h lines 315-330): `grid1` is compared against `grid2`
and `grid3` before any element is touched. -/
def rasterOpGeneric3 {α β γ : Type} (grid1 : GridAccessor α) (grid2 : GridAccessor β)
    (grid3 : GridAccessor γ) (op : α → β → γ → α × β × γ) :
    Except String (GridAccessor α × GridAccessor β × GridAccessor γ) :=
  if grid1.width ≠ grid2.width ∨ grid1.height ≠ grid2.height ∨
      grid1.width ≠ grid3.width ∨ grid1.height ≠ grid3.height then
    Except.error "rasterOpGeneric: size mismatch"
  else
    let r := rasterOpGenericData3 grid1.data grid2.data grid3.data op
    Except.ok ({ grid1 with data := r.1 }, { grid2 with data := r.2.1 },
      { grid3 with data := r.2.2 })

/-- Embedding of class `BinaryImage` as consumed by `rasterOpGeneric`:
a possibly-null 1-bit image; the packed 32-bit words are a memory layout,
their logical content is the bit grid. -/
structure BinaryImage where
  isNull : Bool
  width : Nat
  height : Nat
  data : List (List Bool)

/-- Embedding of the pointer-level `rasterOpGeneric(BinaryImage const&,
T2*, ...)` worker (RasterOpGeneric.h lines 332-352): returns unchanged
data on a null image, otherwise feeds each bit (as 0/1) together with the
corresponding cell of the second image to the operation. -/
def rasterOpGenericBinData {β : Type} (image1 : BinaryImage) (d2 : List (List β))
    (op : Nat → β → β) : List (List β) :=
  if image1.isNull then d2
  else (image1.data.zip d2).map fun rr =>
    (rr.1.zip rr.2).map fun ab => op (if ab.1 then 1 else 0) ab.2

/-- Embedding of the `rasterOpGeneric(BinaryImage const&, GridAccessor<T2>)`
overload (RasterOpGeneric.h lines 354-362). -/
def rasterOpGenericBin {β : Type} (image1 : BinaryImage) (image2 : GridAccessor β)
    (op : Nat → β → β) : Except String (GridAccessor β) :=
  if image1.width ≠ image2.width ∨ image1.height ≠ image2.height then
    Except.error "rasterOpGeneric: size mismatch"
  else
    Except.ok { image2 with data := rasterOpGenericBinData image1 image2.data op }

end imageproc

namespace imageproc

/-- Logical pixel access of a grid accessor (row `y`, column `x`). -/
def GridAccessor.cell {α : Type} [Inhabited α] (g : GridAccessor α) (x y : Nat) : α :=
  (g.data.getD y []).getD x default

theorem rasterOpGenericData_cell_fst {α β : Type} [Inhabited α] [Inhabited β]
    (d1 : List (List α)) (d2 : List (List β)) (op : α → β → α × β) (x y : Nat)
    (hy1 : y < d1.length) (hy2 : y < d2.length)
    (hx1 : x < (d1[y]).length) (hx2 : x < (d2[y]).length) :
    ((rasterOpGenericData d1 d2 op).1.getD y []).getD x default =
      (op (d1[y][x]) (d2[y][x])).1 := by
  have hrow : ((d1.zip d2).map fun rr => (rr.1.zip rr.2).map fun ab => (op ab.1 ab.2).1).getD y []
      = ((d1[y]).zip (d2[y])).map fun ab => (op ab.1 ab.2).1 := by
    rw [List.getD_eq_getElem _ _ (by rw [List.length_map, List.length_zip]; omega)]
    rw [List.getElem_map, List.getElem_zip]
  rw [rasterOpGenericData, hrow]
  rw [List.getD_eq_getElem _ _ (by rw [List.length_map, List.length_zip]; omega)]
  rw [List.getElem_map, List.getElem_zip]

theorem rasterOpGenericData_cell_snd {α β : Type} [Inhabited α] [Inhabited β]
    (d1 : List (List α)) (d2 : List (List β)) (op : α → β → α × β) (x y : Nat)
    (hy1 : y < d1.length) (hy2 : y < d2.length)
    (hx1 : x < (d1[y]).length) (hx2 : x < (d2[y]).length) :
    ((rasterOpGenericData d1 d2 op).2.getD y []).getD x default =
      (op (d1[y][x]) (d2[y][x])).2 := by
  have hrow : ((d1.zip d2).map fun rr => (rr.1.zip rr.2).map fun ab => (op ab.1 ab.2).2).getD y []
      = ((d1[y]).zip (d2[y])).map fun ab => (op ab.1 ab.2).2 := by
    rw [List.getD_eq_getElem _ _ (by rw [List.length_map, List.length_zip]; omega)]
    rw [List.getElem_map, List.getElem_zip]
  rw [rasterOpGenericData, hrow]
  rw [List.getD_eq_getElem _ _ (by rw [List.length_map, List.length_zip]; omega)]
  rw [List.getElem_map, List.getElem_zip]

theorem rasterOpGenericData3_cell {α β γ : Type} [Inhabited α] [Inhabited β] [Inhabited γ]
    (d1 : List (List α)) (d2 : List (List β)) (d3 : List (List γ))
    (op : α → β → γ → α × β × γ) (x y : Nat)
    (hy1 : y < d1.length) (hy2 : y < d2.length) (hy3 : y < d3.length)
    (hx1 : x < (d1[y]).length) (hx2 : x < (d2[y]).length) (hx3 : x < (d3[y]).length) :
    ((rasterOpGenericData3 d1 d2 d3 op).1.getD y []).getD x default =
      (op (d1[y][x]) (d2[y][x]) (d3[y][x])).1 ∧
    ((rasterOpGenericData3 d1 d2 d3 op).2.1.getD y []).getD x default =
      (op (d1[y][x]) (d2[y][x]) (d3[y][x])).2.1 ∧
    ((rasterOpGenericData3 d1 d2 d3 op).2.2.getD y []).getD x default =
      (op (d1[y][x]) (d2[y][x]) (d3[y][x])).2.2 := by
  have hyz : y < (d1.zip (d2.zip d3)).length := by
    rw [List.length_zip, List.length_zip]; omega
  have hxz : x < ((d1[y]).zip ((d2[y]).zip (d3[y]))).length := by
    rw [List.length_zip, List.length_zip]; omega
  have hylen : ∀ {δ : Type} (q : List α × List β × List γ → List δ),
      y < ((d1.zip (d2.zip d3)).map q).length := by
    intro δ q
    rw [List.length_map, List.length_zip, List.length_zip]
    omega
  have hxlen : ∀ {δ : Type} (q : α × β × γ → δ),
      x < (((d1[y]).zip ((d2[y]).zip (d3[y]))).map q).length := by
    intro δ q
    rw [List.length_map, List.length_zip, List.length_zip]
    omega
  have hrows : ∀ {δ : Type} [Inhabited δ] (p : α × β × γ → δ),
      (((d1.zip (d2.zip d3)).map fun rr =>
          (rr.1.zip (rr.2.1.zip rr.2.2)).map fun ab => op ab.1 ab.2.1 ab.2.2).map
            fun row => row.map p).getD y []
        = ((d1[y]).zip ((d2[y]).zip (d3[y]))).map fun ab => p (op ab.1 ab.2.1 ab.2.2) := by
    intro δ _ p
    rw [show (((d1.zip (d2.zip d3)).map fun rr =>
          (rr.1.zip (rr.2.1.zip rr.2.2)).map fun ab => op ab.1 ab.2.1 ab.2.2).map
            fun row => row.map p)
        = ((d1.zip (d2.zip d3)).map fun rr =>
            ((rr.1.zip (rr.2.1.zip rr.2.2)).map fun ab => op ab.1 ab.2.1 ab.2.2).map p) from
      List.map_map _ _ _]
    rw [List.getD_eq_getElem _ _ (hylen _)]
    rw [List.getElem_map, List.getElem_zip, List.getElem_zip, List.map_map]
    rfl
  refine ⟨?_, ?_, ?_⟩ <;>
    · rw [rasterOpGenericData3]
      rw [hrows]
      rw [List.getD_eq_getElem _ _ (hxlen _)]
      rw [List.getElem_map, List.getElem_zip, List.getElem_zip]

theorem rasterOpGenericBinData_cell {β : Type} [Inhabited β]
    (image1 : BinaryImage) (d2 : List (List β)) (op : Nat → β → β) (x y : Nat)
    (hnull : image1.isNull = false)
    (hy1 : y < image1.data.length) (hy2 : y < d2.length)
    (hx1 : x < (image1.data[y]).length) (hx2 : x < (d2[y]).length) :
    ((rasterOpGenericBinData image1 d2 op).getD y []).getD x default =
      op (if image1.data[y][x] then 1 else 0) (d2[y][x]) := by
  have hrow : ((image1.data.zip d2).map fun rr =>
      (rr.1.zip rr.2).map fun ab => op (if ab.1 then 1 else 0) ab.2).getD y []
      = ((image1.data[y]).zip (d2[y])).map fun ab => op (if ab.1 then 1 else 0) ab.2 := by
    rw [List.getD_eq_getElem _ _ (by rw [List.length_map, List.length_zip]; omega)]
    rw [List.getElem_map, List.getElem_zip]
  rw [rasterOpGenericBinData, hnull]
  simp only [Bool.false_eq_true, if_false]
  rw [hrow]
  rw [List.getD_eq_getElem _ _ (by rw [List.length_map, List.length_zip]; omega)]
  rw [List.getElem_map, List.getElem_zip]

end imageproc

namespace imageproc

/-- Well-formedness of a binary image: the bit rows really have the
advertised dimensions. -/
def BinaryImage.Wf (b : BinaryImage) : Prop :=
  b.data.length = b.height ∧ ∀ row ∈ b.data, row.length = b.width

/-- Logical bit access of a binary image (row `y`, column `x`). -/
def BinaryImage.cell (b : BinaryImage) (x y : Nat) : Bool :=
  (b.data.getD y []).getD x false

theorem GridAccessor.cell_eq_getElem {α : Type} [Inhabited α] (g : GridAccessor α) (x y : Nat)
    (hy : y < g.data.length) (hx : x < (g.data[y]).length) :
    g.cell x y = g.data[y][x] := by
  rw [GridAccessor.cell, List.getD_eq_getElem _ _ hy, List.getD_eq_getElem _ _ hx]

theorem BinaryImage.bit_eq_getElem (b : BinaryImage) (x y : Nat)
    (hy : y < b.data.length) (hx : x < (b.data[y]).length) :
    b.cell x y = b.data[y][x] := by
  rw [BinaryImage.cell, List.getD_eq_getElem _ _ hy, List.getD_eq_getElem _ _ hx]

end imageproc

/-- C8 (intended behavior, provable for the overloads that compile): each
embedded `GridAccessor`-based `rasterOpGeneric` overload throws
`std::invalid_argument` whenever widths or heights differ, before touching
any element, and when all dimensions match it applies the operation to
every pixel.  (The two-`GridAccessor` `rasterOpGenericXY` overload of the
source cannot satisfy this: its body names `grid1`/`grid2` while its
parameters are `data1`/`data2`, so it does not compile; see the result
record.) -/
theorem rasterOpGeneric_size_guard {α β γ : Type} [Inhabited α] [Inhabited β] [Inhabited γ]
    (g1 : imageproc.GridAccessor α) (g2 : imageproc.GridAccessor β)
    (g3 : imageproc.GridAccessor γ) (b1 : imageproc.BinaryImage)
    (op2 : α → β → α × β) (op3 : α → β → γ → α × β × γ) (opb : Nat → β → β) :
    ((g1.width ≠ g2.width ∨ g1.height ≠ g2.height) →
      imageproc.rasterOpGeneric2 g1 g2 op2 = Except.error "rasterOpGeneric: size mismatch") ∧
    (g1.width = g2.width → g1.height = g2.height → g1.Wf → g2.Wf →
      ∃ r1 r2, imageproc.rasterOpGeneric2 g1 g2 op2 = Except.ok (r1, r2) ∧
        ∀ y, y < g1.height → ∀ x, x < g1.width →
          r1.cell x y = (op2 (g1.cell x y) (g2.cell x y)).1 ∧
          r2.cell x y = (op2 (g1.cell x y) (g2.cell x y)).2) ∧
    ((g1.width ≠ g2.width ∨ g1.height ≠ g2.height ∨
        g1.width ≠ g3.width ∨ g1.height ≠ g3.height) →
      imageproc.rasterOpGeneric3 g1 g2 g3 op3 = Except.error "rasterOpGeneric: size mismatch") ∧
    (g1.width = g2.width → g1.height = g2.height → g1.width = g3.width → g1.height = g3.height →
      g1.Wf → g2.Wf → g3.Wf →
      ∃ r1 r2 r3, imageproc.rasterOpGeneric3 g1 g2 g3 op3 = Except.ok (r1, r2, r3) ∧
        ∀ y, y < g1.height → ∀ x, x < g1.width →
          r1.cell x y = (op3 (g1.cell x y) (g2.cell x y) (g3.cell x y)).1 ∧
          r2.cell x y = (op3 (g1.cell x y) (g2.cell x y) (g3.cell x y)).2.1 ∧
          r3.cell x y = (op3 (g1.cell x y) (g2.cell x y) (g3.cell x y)).2.2) ∧
    ((b1.width ≠ g2.width ∨ b1.height ≠ g2.height) →
      imageproc.rasterOpGenericBin b1 g2 opb = Except.error "rasterOpGeneric: size mismatch") ∧
    (b1.width = g2.width → b1.height = g2.height → b1.isNull = false → b1.Wf → g2.Wf →
      ∃ r, imageproc.rasterOpGenericBin b1 g2 opb = Except.ok r ∧
        ∀ y, y < b1.height → ∀ x, x < b1.width →
          r.cell x y = opb (if b1.cell x y then 1 else 0) (g2.cell x y)) := by
  refine ⟨?_, ?_, ?_, ?_, ?_, ?_⟩
  · intro h
    rw [imageproc.rasterOpGeneric2, if_pos h]
  · intro hw hh wf1 wf2
    have hnot : ¬(g1.width ≠ g2.width ∨ g1.height ≠ g2.height) := by simp [hw, hh]
    refine ⟨{ g1 with data := (imageproc.rasterOpGenericData g1.data g2.data op2).1 },
      { g2 with data := (imageproc.rasterOpGenericData g1.data g2.data op2).2 },
      by rw [imageproc.rasterOpGeneric2, if_neg hnot], ?_⟩
    intro y hy x hx
    have hy1 : y < g1.data.length := by rw [wf1.1]; exact hy
    have hy2 : y < g2.data.length := by rw [wf2.1, ← hh]; exact hy
    have hx1 : x < (g1.data[y]).length := by
      rw [wf1.2 _ (g1.data.getElem_mem hy1)]; exact hx
    have hx2 : x < (g2.data[y]).length := by
      rw [wf2.2 _ (g2.data.getElem_mem hy2), ← hw]; exact hx
    rw [imageproc.GridAccessor.cell_eq_getElem g1 x y hy1 hx1,
      imageproc.GridAccessor.cell_eq_getElem g2 x y hy2 hx2]
    constructor
    · exact imageproc.rasterOpGenericData_cell_fst g1.data g2.data op2 x y hy1 hy2 hx1 hx2
    · exact imageproc.rasterOpGenericData_cell_snd g1.data g2.data op2 x y hy1 hy2 hx1 hx2
  · intro h
    rw [imageproc.rasterOpGeneric3, if_pos h]
  · intro hw2 hh2 hw3 hh3 wf1 wf2 wf3
    have hnot : ¬(g1.width ≠ g2.width ∨ g1.height ≠ g2.height ∨
        g1.width ≠ g3.width ∨ g1.height ≠ g3.height) := by
      push_neg
      exact ⟨hw2, hh2, hw3, hh3⟩
    refine ⟨{ g1 with data := (imageproc.rasterOpGenericData3 g1.data g2.data g3.data op3).1 },
      { g2 with data := (imageproc.rasterOpGenericData3 g1.data g2.data g3.data op3).2.1 },
      { g3 with data := (imageproc.rasterOpGenericData3 g1.data g2.data g3.data op3).2.2 },
      by rw [imageproc.rasterOpGeneric3, if_neg hnot], ?_⟩
    intro y hy x hx
    have hy1 : y < g1.data.length := by rw [wf1.1]; exact hy
    have hy2 : y < g2.data.length := by rw [wf2.1, ← hh2]; exact hy
    have hy3 : y < g3.data.length := by rw [wf3.1, ← hh3]; exact hy
    have hx1 : x < (g1.data[y]).length := by
      rw [wf1.2 _ (g1.data.getElem_mem hy1)]; exact hx
    have hx2 : x < (g2.data[y]).length := by
      rw [wf2.2 _ (g2.data.getElem_mem hy2), ← hw2]; exact hx
    have hx3 : x < (g3.data[y]).length := by
      rw [wf3.2 _ (g3.data.getElem_mem hy3), ← hw3]; exact hx
    rw [imageproc.GridAccessor.cell_eq_getElem g1 x y hy1 hx1,
      imageproc.GridAccessor.cell_eq_getElem g2 x y hy2 hx2,
      imageproc.GridAccessor.cell_eq_getElem g3 x y hy3 hx3]
    exact imageproc.rasterOpGenericData3_cell g1.data g2.data g3.data op3 x y
      hy1 hy2 hy3 hx1 hx2 hx3
  · intro h
    rw [imageproc.rasterOpGenericBin, if_pos h]
  · intro hw hh hnull wf1 wf2
    have hnot : ¬(b1.width ≠ g2.width ∨ b1.height ≠ g2.height) := by simp [hw, hh]
    refine ⟨{ g2 with data := imageproc.rasterOpGenericBinData b1 g2.data opb },
      by rw [imageproc.rasterOpGenericBin, if_neg hnot], ?_⟩
    intro y hy x hx
    have hy1 : y < b1.data.length := by rw [wf1.1]; exact hy
    have hy2 : y < g2.data.length := by rw [wf2.1, ← hh]; exact hy
    have hx1 : x < (b1.data[y]).length := by
      rw [wf1.2 _ (b1.data.getElem_mem hy1)]; exact hx
    have hx2 : x < (g2.data[y]).length := by
      rw [wf2.2 _ (g2.data.getElem_mem hy2), ← hw]; exact hx
    rw [imageproc.BinaryImage.bit_eq_getElem b1 x y hy1 hx1,
      imageproc.GridAccessor.cell_eq_getElem g2 x y hy2 hx2]
    exact imageproc.rasterOpGenericBinData_cell b1 g2.data opb x y hnull hy1 hy2 hx1 hx2

/-- Witness for C8 at concrete grids: a 2x2/1x1 mismatch throws, and on
matching 2x2 grids the operation is applied pointwise. -/
theorem rasterOpGeneric_size_guard_witness :
    (imageproc.rasterOpGeneric2 (⟨[[1, 2], [3, 4]], 2, 2⟩ : imageproc.GridAccessor Nat)
        (⟨[[5]], 1, 1⟩ : imageproc.GridAccessor Nat) (fun a b => (a + b, a * b)) =
      Except.error "rasterOpGeneric: size mismatch") ∧
    (∃ r1 r2, imageproc.rasterOpGeneric2
        (⟨[[1, 2], [3, 4]], 2, 2⟩ : imageproc.GridAccessor Nat)
        (⟨[[10, 20], [30, 40]], 2, 2⟩ : imageproc.GridAccessor Nat)
        (fun a b => (a + b, a * b)) = Except.ok (r1, r2) ∧
      ∀ y, y < (⟨[[1, 2], [3, 4]], 2, 2⟩ : imageproc.GridAccessor Nat).height →
        ∀ x, x < (⟨[[1, 2], [3, 4]], 2, 2⟩ : imageproc.GridAccessor Nat).width →
          r1.cell x y = (⟨[[1, 2], [3, 4]], 2, 2⟩ : imageproc.GridAccessor Nat).cell x y +
            (⟨[[10, 20], [30, 40]], 2, 2⟩ : imageproc.GridAccessor Nat).cell x y ∧
          r2.cell x y = (⟨[[1, 2], [3, 4]], 2, 2⟩ : imageproc.GridAccessor Nat).cell x y *
            (⟨[[10, 20], [30, 40]], 2, 2⟩ : imageproc.GridAccessor Nat).cell x y) :=
  ⟨(rasterOpGeneric_size_guard (⟨[[1, 2], [3, 4]], 2, 2⟩ : imageproc.GridAccessor Nat)
      (⟨[[5]], 1, 1⟩ : imageproc.GridAccessor Nat)
      (⟨[[0]], 1, 1⟩ : imageproc.GridAccessor Nat)
      ⟨false, 1, 1, [[true]]⟩ (fun a b => (a + b, a * b))
      (fun a b c => (a, b, c)) (fun a b => a + b)).1 (by decide),
    (rasterOpGeneric_size_guard (⟨[[1, 2], [3, 4]], 2, 2⟩ : imageproc.GridAccessor Nat)
      (⟨[[10, 20], [30, 40]], 2, 2⟩ : imageproc.GridAccessor Nat)
      (⟨[[0]], 1, 1⟩ : imageproc.GridAccessor Nat)
      ⟨false, 1, 1, [[true]]⟩ (fun a b => (a + b, a * b))
      (fun a b c => (a, b, c)) (fun a b => a + b)).2.1 rfl rfl
      (by constructor <;> decide) (by constructor <;> decide)⟩

/- ============== ZoneDefaultInteraction.cpp : paste action ============== -/

/-- Embedding of `QPolygonF` as its vertex list, with exact rational
coordinates (paste only copies, translates and compares them). -/
abbrev PolygonF : Type := List (ℚ × ℚ)

/-- Embedding of `QTransform().translate(100, 100)` applied through
`shift.map` (ZoneDefaultInteraction.cpp lines 69 and 79). -/
def translate100 (p : PolygonF) : PolygonF :=
  p.map fun pt => (pt.1 + 100, pt.2 + 100)

/-- Modelled from the spec: the `EditableZoneSet` interface consumed by
the paste action (the class's own source is not in the excerpt) — the
ordered collection of zone polygons plus a count of performed commits;
`addZone` appends, `commit` publishes one atomic change (spec sections 3
and 4.6). -/
structure PasteZoneSet where
  zones : List PolygonF
  commits : Nat
deriving DecidableEq, Repr

/-- Embedding of the paste handler's do-while loop
(ZoneDefaultInteraction.cpp lines 71-88): while the candidate polygon
equals some existing zone's polygon, translate it by (100,100) and rescan
all zones.  The C++ loop is unbounded; `fuel` bounds the recursion here
and `none` marks exhaustion (ruled out for nonempty polygons by the
accompanying theorem). -/
def pasteLoop : Nat → PolygonF → List PolygonF → Option PolygonF
  | 0, _, _ => none
  | fuel + 1, p, zs => if p ∈ zs then pasteLoop fuel (translate100 p) zs else some p

/-- Embedding of the whole paste action for a spline clipboard payload
already mapped into image space (ZoneDefaultInteraction.cpp lines 64-90):
find the first non-duplicate offset, then add exactly one zone and
commit exactly once. -/
def pasteAction (zset : PasteZoneSet) (p : PolygonF) : Option PasteZoneSet :=
  match pasteLoop (zset.zones.length + 1) p zset.zones with
  | some q => some { zones := zset.zones ++ [q], commits := zset.commits + 1 }
  | none => none

theorem pasteLoop_reaches_free (zs : List PolygonF) (p : PolygonF) (k fuel : Nat)
    (hfuel : k < fuel)
    (hdup : ∀ i < k, translate100^[i] p ∈ zs)
    (hfree : translate100^[k] p ∉ zs) :
    pasteLoop fuel p zs = some (translate100^[k] p) := by
  induction k generalizing p fuel with
  | zero =>
      obtain ⟨f, rfl⟩ : ∃ f, fuel = f + 1 := ⟨fuel - 1, by omega⟩
      rw [pasteLoop, if_neg (by simpa using hfree)]
      simp
  | succ k ih =>
      obtain ⟨f, rfl⟩ : ∃ f, fuel = f + 1 := ⟨fuel - 1, by omega⟩
      rw [pasteLoop, if_pos (by simpa using hdup 0 (by omega))]
      have h1 : ∀ i < k, translate100^[i] (translate100 p) ∈ zs := by
        intro i hi
        rw [← Function.iterate_succ_apply]
        exact hdup (i + 1) (by omega)
      have h2 : translate100^[k] (translate100 p) ∉ zs := by
        rw [← Function.iterate_succ_apply]
        exact hfree
      rw [ih (translate100 p) f (by omega) h1 h2, Function.iterate_succ_apply]

theorem translate100_iterate_cons (i : Nat) (a : ℚ × ℚ) (xs : PolygonF) :
    translate100^[i] (a :: xs) =
      (a.1 + 100 * i, a.2 + 100 * i) :: translate100^[i] xs := by
  induction i generalizing a xs with
  | zero => simp
  | succ i ih =>
      rw [Function.iterate_succ_apply, Function.iterate_succ_apply]
      have hstep : translate100 (a :: xs) = (a.1 + 100, a.2 + 100) :: translate100 xs := rfl
      rw [hstep, ih]
      push_cast
      have h1 : a.1 + 100 + 100 * (i : ℚ) = a.1 + 100 * ((i : ℚ) + 1) := by ring
      have h2 : a.2 + 100 + 100 * (i : ℚ) = a.2 + 100 * ((i : ℚ) + 1) := by ring
      rw [h1, h2]

/-- C4: pasting with a spline payload compares the pasted polygon against
every existing zone's polygon, translating by the fixed (100,100) offset
and re-checking until it matches none; then exactly one zone with the
translated polygon is added and exactly one commit is performed.  With
`k` pre-existing duplicates at the first `k` successive offsets, the
added polygon is the original translated `k` times. -/
theorem pasteAction_skips_duplicates (zset : PasteZoneSet) (p : PolygonF) (k : Nat)
    (hne : p ≠ [])
    (hdup : ∀ i < k, translate100^[i] p ∈ zset.zones)
    (hfree : translate100^[k] p ∉ zset.zones) :
    pasteAction zset p =
      some { zones := zset.zones ++ [translate100^[k] p]
             commits := zset.commits + 1 } := by
  have hinj : Set.InjOn (fun i => translate100^[i] p) (Finset.range k) := by
    obtain ⟨a, xs, rfl⟩ := List.exists_cons_of_ne_nil hne
    intro i _ j _ hij
    simp only [translate100_iterate_cons, List.cons.injEq, Prod.mk.injEq] at hij
    have hq : (i : ℚ) = (j : ℚ) := by
      have := hij.1.1
      linarith
    exact_mod_cast hq
  have hsub : (Finset.range k).image (fun i => translate100^[i] p) ⊆ zset.zones.toFinset := by
    intro q hq
    simp only [Finset.mem_image, Finset.mem_range] at hq
    obtain ⟨i, hi, rfl⟩ := hq
    exact List.mem_toFinset.mpr (hdup i hi)
  have hcard := Finset.card_le_card hsub
  rw [Finset.card_image_of_injOn hinj, Finset.card_range] at hcard
  have hlen := zset.zones.toFinset_card_le
  rw [pasteAction, pasteLoop_reaches_free zset.zones p k _ (by omega) hdup hfree]

/-- Witness for C4: two pre-existing duplicates at offsets 0 and 1, so the
pasted triangle lands at offset 2 with exactly one commit. -/
theorem pasteAction_skips_duplicates_witness :
    pasteAction
        ⟨[[(0, 0), (2, 0), (2, 2)], translate100 [(0, 0), (2, 0), (2, 2)]], 0⟩
        [(0, 0), (2, 0), (2, 2)] =
      some { zones := [[(0, 0), (2, 0), (2, 2)], translate100 [(0, 0), (2, 0), (2, 2)]] ++
               [translate100^[2] [(0, 0), (2, 0), (2, 2)]]
             commits := 0 + 1 } :=
  pasteAction_skips_duplicates
    ⟨[[(0, 0), (2, 0), (2, 2)], translate100 [(0, 0), (2, 0), (2, 2)]], 0⟩
    [(0, 0), (2, 0), (2, 2)] 2 (by simp)
    (by
      intro i hi
      interval_cases i
      · simp
      · simp)
    (by
      have h2 : translate100^[2] ([(0, 0), (2, 0), (2, 2)] : PolygonF) =
          [(200, 200), (202, 200), (202, 202)] := by
        rw [show (2 : ℕ) = 1 + 1 from rfl, Function.iterate_add_apply, Function.iterate_one]
        norm_num [translate100]
      rw [h2]
      norm_num [translate100])

/- ============ ColorPickupInteraction.cpp : bit mixing ============ -/

/-- Transcription of the static table `ColorPickupInteraction::m_sBitMixingLUT` (part_000 lines 224-327); proved below to agree with the generator loop given in its source doc comment. -/
def m_sBitMixingLUT : List (List Nat) :=
  [[
    0x00000000, 0x00000004, 0x00000020, 0x00000024, 0x00000100, 0x00000104, 0x00000120, 0x00000124,
    0x00000800, 0x00000804, 0x00000820, 0x00000824, 0x00000900, 0x00000904, 0x00000920, 0x00000924,
    0x00004000, 0x00004004, 0x00004020, 0x00004024, 0x00004100, 0x00004104, 0x00004120, 0x00004124,
    0x00004800, 0x00004804, 0x00004820, 0x00004824, 0x00004900, 0x00004904, 0x00004920, 0x00004924,
    0x00020000, 0x00020004, 0x00020020, 0x00020024, 0x00020100, 0x00020104, 0x00020120, 0x00020124,
    0x00020800, 0x00020804, 0x00020820, 0x00020824, 0x00020900, 0x00020904, 0x00020920, 0x00020924,
    0x00024000, 0x00024004, 0x00024020, 0x00024024, 0x00024100, 0x00024104, 0x00024120, 0x00024124,
    0x00024800, 0x00024804, 0x00024820, 0x00024824, 0x00024900, 0x00024904, 0x00024920, 0x00024924,
    0x00100000, 0x00100004, 0x00100020, 0x00100024, 0x00100100, 0x00100104, 0x00100120, 0x00100124,
    0x00100800, 0x00100804, 0x00100820, 0x00100824, 0x00100900, 0x00100904, 0x00100920, 0x00100924,
    0x00104000, 0x00104004, 0x00104020, 0x00104024, 0x00104100, 0x00104104, 0x00104120, 0x00104124,
    0x00104800, 0x00104804, 0x00104820, 0x00104824, 0x00104900, 0x00104904, 0x00104920, 0x00104924,
    0x00120000, 0x00120004, 0x00120020, 0x00120024, 0x00120100, 0x00120104, 0x00120120, 0x00120124,
    0x00120800, 0x00120804, 0x00120820, 0x00120824, 0x00120900, 0x00120904, 0x00120920, 0x00120924,
    0x00124000, 0x00124004, 0x00124020, 0x00124024, 0x00124100, 0x00124104, 0x00124120, 0x00124124,
    0x00124800, 0x00124804, 0x00124820, 0x00124824, 0x00124900, 0x00124904, 0x00124920, 0x00124924,
    0x00800000, 0x00800004, 0x00800020, 0x00800024, 0x00800100, 0x00800104, 0x00800120, 0x00800124,
    0x00800800, 0x00800804, 0x00800820, 0x00800824, 0x00800900, 0x00800904, 0x00800920, 0x00800924,
    0x00804000, 0x00804004, 0x00804020, 0x00804024, 0x00804100, 0x00804104, 0x00804120, 0x00804124,
    0x00804800, 0x00804804, 0x00804820, 0x00804824, 0x00804900, 0x00804904, 0x00804920, 0x00804924,
    0x00820000, 0x00820004, 0x00820020, 0x00820024, 0x00820100, 0x00820104, 0x00820120, 0x00820124,
    0x00820800, 0x00820804, 0x00820820, 0x00820824, 0x00820900, 0x00820904, 0x00820920, 0x00820924,
    0x00824000, 0x00824004, 0x00824020, 0x00824024, 0x00824100, 0x00824104, 0x00824120, 0x00824124,
    0x00824800, 0x00824804, 0x00824820, 0x00824824, 0x00824900, 0x00824904, 0x00824920, 0x00824924,
    0x00900000, 0x00900004, 0x00900020, 0x00900024, 0x00900100, 0x00900104, 0x00900120, 0x00900124,
    0x00900800, 0x00900804, 0x00900820, 0x00900824, 0x00900900, 0x00900904, 0x00900920, 0x00900924,
    0x00904000, 0x00904004, 0x00904020, 0x00904024, 0x00904100, 0x00904104, 0x00904120, 0x00904124,
    0x00904800, 0x00904804, 0x00904820, 0x00904824, 0x00904900, 0x00904904, 0x00904920, 0x00904924,
    0x00920000, 0x00920004, 0x00920020, 0x00920024, 0x00920100, 0x00920104, 0x00920120, 0x00920124,
    0x00920800, 0x00920804, 0x00920820, 0x00920824, 0x00920900, 0x00920904, 0x00920920, 0x00920924,
    0x00924000, 0x00924004, 0x00924020, 0x00924024, 0x00924100, 0x00924104, 0x00924120, 0x00924124,
    0x00924800, 0x00924804, 0x00924820, 0x00924824, 0x00924900, 0x00924904, 0x00924920, 0x00924924
   ],
   [
    0x00000000, 0x00000002, 0x00000010, 0x00000012, 0x00000080, 0x00000082, 0x00000090, 0x00000092,
    0x00000400, 0x00000402, 0x00000410, 0x00000412, 0x00000480, 0x00000482, 0x00000490, 0x00000492,
    0x00002000, 0x00002002, 0x00002010, 0x00002012, 0x00002080, 0x00002082, 0x00002090, 0x00002092,
    0x00002400, 0x00002402, 0x00002410, 0x00002412, 0x00002480, 0x00002482, 0x00002490, 0x00002492,
    0x00010000, 0x00010002, 0x00010010, 0x00010012, 0x00010080, 0x00010082, 0x00010090, 0x00010092,
    0x00010400, 0x00010402, 0x00010410, 0x00010412, 0x00010480, 0x00010482, 0x00010490, 0x00010492,
    0x00012000, 0x00012002, 0x00012010, 0x00012012, 0x00012080, 0x00012082, 0x00012090, 0x00012092,
    0x00012400, 0x00012402, 0x00012410, 0x00012412, 0x00012480, 0x00012482, 0x00012490, 0x00012492,
    0x00080000, 0x00080002, 0x00080010, 0x00080012, 0x00080080, 0x00080082, 0x00080090, 0x00080092,
    0x00080400, 0x00080402, 0x00080410, 0x00080412, 0x00080480, 0x00080482, 0x00080490, 0x00080492,
    0x00082000, 0x00082002, 0x00082010, 0x00082012, 0x00082080, 0x00082082, 0x00082090, 0x00082092,
    0x00082400, 0x00082402, 0x00082410, 0x00082412, 0x00082480, 0x00082482, 0x00082490, 0x00082492,
    0x00090000, 0x00090002, 0x00090010, 0x00090012, 0x00090080, 0x00090082, 0x00090090, 0x00090092,
    0x00090400, 0x00090402, 0x00090410, 0x00090412, 0x00090480, 0x00090482, 0x00090490, 0x00090492,
    0x00092000, 0x00092002, 0x00092010, 0x00092012, 0x00092080, 0x00092082, 0x00092090, 0x00092092,
    0x00092400, 0x00092402, 0x00092410, 0x00092412, 0x00092480, 0x00092482, 0x00092490, 0x00092492,
    0x00400000, 0x00400002, 0x00400010, 0x00400012, 0x00400080, 0x00400082, 0x00400090, 0x00400092,
    0x00400400, 0x00400402, 0x00400410, 0x00400412, 0x00400480, 0x00400482, 0x00400490, 0x00400492,
    0x00402000, 0x00402002, 0x00402010, 0x00402012, 0x00402080, 0x00402082, 0x00402090, 0x00402092,
    0x00402400, 0x00402402, 0x00402410, 0x00402412, 0x00402480, 0x00402482, 0x00402490, 0x00402492,
    0x00410000, 0x00410002, 0x00410010, 0x00410012, 0x00410080, 0x00410082, 0x00410090, 0x00410092,
    0x00410400, 0x00410402, 0x00410410, 0x00410412, 0x00410480, 0x00410482, 0x00410490, 0x00410492,
    0x00412000, 0x00412002, 0x00412010, 0x00412012, 0x00412080, 0x00412082, 0x00412090, 0x00412092,
    0x00412400, 0x00412402, 0x00412410, 0x00412412, 0x00412480, 0x00412482, 0x00412490, 0x00412492,
    0x00480000, 0x00480002, 0x00480010, 0x00480012, 0x00480080, 0x00480082, 0x00480090, 0x00480092,
    0x00480400, 0x00480402, 0x00480410, 0x00480412, 0x00480480, 0x00480482, 0x00480490, 0x00480492,
    0x00482000, 0x00482002, 0x00482010, 0x00482012, 0x00482080, 0x00482082, 0x00482090, 0x00482092,
    0x00482400, 0x00482402, 0x00482410, 0x00482412, 0x00482480, 0x00482482, 0x00482490, 0x00482492,
    0x00490000, 0x00490002, 0x00490010, 0x00490012, 0x00490080, 0x00490082, 0x00490090, 0x00490092,
    0x00490400, 0x00490402, 0x00490410, 0x00490412, 0x00490480, 0x00490482, 0x00490490, 0x00490492,
    0x00492000, 0x00492002, 0x00492010, 0x00492012, 0x00492080, 0x00492082, 0x00492090, 0x00492092,
    0x00492400, 0x00492402, 0x00492410, 0x00492412, 0x00492480, 0x00492482, 0x00492490, 0x00492492
   ],
   [
    0x00000000, 0x00000001, 0x00000008, 0x00000009, 0x00000040, 0x00000041, 0x00000048, 0x00000049,
    0x00000200, 0x00000201, 0x00000208, 0x00000209, 0x00000240, 0x00000241, 0x00000248, 0x00000249,
    0x00001000, 0x00001001, 0x00001008, 0x00001009, 0x00001040, 0x00001041, 0x00001048, 0x00001049,
    0x00001200, 0x00001201, 0x00001208, 0x00001209, 0x00001240, 0x00001241, 0x00001248, 0x00001249,
    0x00008000, 0x00008001, 0x00008008, 0x00008009, 0x00008040, 0x00008041, 0x00008048, 0x00008049,
    0x00008200, 0x00008201, 0x00008208, 0x00008209, 0x00008240, 0x00008241, 0x00008248, 0x00008249,
    0x00009000, 0x00009001, 0x00009008, 0x00009009, 0x00009040, 0x00009041, 0x00009048, 0x00009049,
    0x00009200, 0x00009201, 0x00009208, 0x00009209, 0x00009240, 0x00009241, 0x00009248, 0x00009249,
    0x00040000, 0x00040001, 0x00040008, 0x00040009, 0x00040040, 0x00040041, 0x00040048, 0x00040049,
    0x00040200, 0x00040201, 0x00040208, 0x00040209, 0x00040240, 0x00040241, 0x00040248, 0x00040249,
    0x00041000, 0x00041001, 0x00041008, 0x00041009, 0x00041040, 0x00041041, 0x00041048, 0x00041049,
    0x00041200, 0x00041201, 0x00041208, 0x00041209, 0x00041240, 0x00041241, 0x00041248, 0x00041249,
    0x00048000, 0x00048001, 0x00048008, 0x00048009, 0x00048040, 0x00048041, 0x00048048, 0x00048049,
    0x00048200, 0x00048201, 0x00048208, 0x00048209, 0x00048240, 0x00048241, 0x00048248, 0x00048249,
    0x00049000, 0x00049001, 0x00049008, 0x00049009, 0x00049040, 0x00049041, 0x00049048, 0x00049049,
    0x00049200, 0x00049201, 0x00049208, 0x00049209, 0x00049240, 0x00049241, 0x00049248, 0x00049249,
    0x00200000, 0x00200001, 0x00200008, 0x00200009, 0x00200040, 0x00200041, 0x00200048, 0x00200049,
    0x00200200, 0x00200201, 0x00200208, 0x00200209, 0x00200240, 0x00200241, 0x00200248, 0x00200249,
    0x00201000, 0x00201001, 0x00201008, 0x00201009, 0x00201040, 0x00201041, 0x00201048, 0x00201049,
    0x00201200, 0x00201201, 0x00201208, 0x00201209, 0x00201240, 0x00201241, 0x00201248, 0x00201249,
    0x00208000, 0x00208001, 0x00208008, 0x00208009, 0x00208040, 0x00208041, 0x00208048, 0x00208049,
    0x00208200, 0x00208201, 0x00208208, 0x00208209, 0x00208240, 0x00208241, 0x00208248, 0x00208249,
    0x00209000, 0x00209001, 0x00209008, 0x00209009, 0x00209040, 0x00209041, 0x00209048, 0x00209049,
    0x00209200, 0x00209201, 0x00209208, 0x00209209, 0x00209240, 0x00209241, 0x00209248, 0x00209249,
    0x00240000, 0x00240001, 0x00240008, 0x00240009, 0x00240040, 0x00240041, 0x00240048, 0x00240049,
    0x00240200, 0x00240201, 0x00240208, 0x00240209, 0x00240240, 0x00240241, 0x00240248, 0x00240249,
    0x00241000, 0x00241001, 0x00241008, 0x00241009, 0x00241040, 0x00241041, 0x00241048, 0x00241049,
    0x00241200, 0x00241201, 0x00241208, 0x00241209, 0x00241240, 0x00241241, 0x00241248, 0x00241249,
    0x00248000, 0x00248001, 0x00248008, 0x00248009, 0x00248040, 0x00248041, 0x00248048, 0x00248049,
    0x00248200, 0x00248201, 0x00248208, 0x00248209, 0x00248240, 0x00248241, 0x00248248, 0x00248249,
    0x00249000, 0x00249001, 0x00249008, 0x00249009, 0x00249040, 0x00249041, 0x00249048, 0x00249049,
    0x00249200, 0x00249201, 0x00249208, 0x00249209, 0x00249240, 0x00249241, 0x00249248, 0x00249249
  ]]

/-- Transcription of the static table `ColorPickupInteraction::m_sBitUnmixingLUT` (part_000 lines 350-453); proved below to agree with the generator loop given in its source doc comment. -/
def m_sBitUnmixingLUT : List (List Nat) :=
  [[
    0x00000000, 0x00002000, 0x00200000, 0x00202000, 0x00000040, 0x00002040, 0x00200040, 0x00202040,
    0x00004000, 0x00006000, 0x00204000, 0x00206000, 0x00004040, 0x00006040, 0x00204040, 0x00206040,
    0x00400000, 0x00402000, 0x00600000, 0x00602000, 0x00400040, 0x00402040, 0x00600040, 0x00602040,
    0x00404000, 0x00406000, 0x00604000, 0x00606000, 0x00404040, 0x00406040, 0x00604040, 0x00606040,
    0x00000080, 0x00002080, 0x00200080, 0x00202080, 0x000000c0, 0x000020c0, 0x002000c0, 0x002020c0,
    0x00004080, 0x00006080, 0x00204080, 0x00206080, 0x000040c0, 0x000060c0, 0x002040c0, 0x002060c0,
    0x00400080, 0x00402080, 0x00600080, 0x00602080, 0x004000c0, 0x004020c0, 0x006000c0, 0x006020c0,
    0x00404080, 0x00406080, 0x00604080, 0x00606080, 0x004040c0, 0x004060c0, 0x006040c0, 0x006060c0,
    0x00008000, 0x0000a000, 0x00208000, 0x0020a000, 0x00008040, 0x0000a040, 0x00208040, 0x0020a040,
    0x0000c000, 0x0000e000, 0x0020c000, 0x0020e000, 0x0000c040, 0x0000e040, 0x0020c040, 0x0020e040,
    0x00408000, 0x0040a000, 0x00608000, 0x0060a000, 0x00408040, 0x0040a040, 0x00608040, 0x0060a040,
    0x0040c000, 0x0040e000, 0x0060c000, 0x0060e000, 0x0040c040, 0x0040e040, 0x0060c040, 0x0060e040,
    0x00008080, 0x0000a080, 0x00208080, 0x0020a080, 0x000080c0, 0x0000a0c0, 0x002080c0, 0x0020a0c0,
    0x0000c080, 0x0000e080, 0x0020c080, 0x0020e080, 0x0000c0c0, 0x0000e0c0, 0x0020c0c0, 0x0020e0c0,
    0x00408080, 0x0040a080, 0x00608080, 0x0060a080, 0x004080c0, 0x0040a0c0, 0x006080c0, 0x0060a0c0,
    0x0040c080, 0x0040e080, 0x0060c080, 0x0060e080, 0x0040c0c0, 0x0040e0c0, 0x0060c0c0, 0x0060e0c0,
    0x00800000, 0x00802000, 0x00a00000, 0x00a02000, 0x00800040, 0x00802040, 0x00a00040, 0x00a02040,
    0x00804000, 0x00806000, 0x00a04000, 0x00a06000, 0x00804040, 0x00806040, 0x00a04040, 0x00a06040,
    0x00c00000, 0x00c02000, 0x00e00000, 0x00e02000, 0x00c00040, 0x00c02040, 0x00e00040, 0x00e02040,
    0x00c04000, 0x00c06000, 0x00e04000, 0x00e06000, 0x00c04040, 0x00c06040, 0x00e04040, 0x00e06040,
    0x00800080, 0x00802080, 0x00a00080, 0x00a02080, 0x008000c0, 0x008020c0, 0x00a000c0, 0x00a020c0,
    0x00804080, 0x00806080, 0x00a04080, 0x00a06080, 0x008040c0, 0x008060c0, 0x00a040c0, 0x00a060c0,
    0x00c00080, 0x00c02080, 0x00e00080, 0x00e02080, 0x00c000c0, 0x00c020c0, 0x00e000c0, 0x00e020c0,
    0x00c04080, 0x00c06080, 0x00e04080, 0x00e06080, 0x00c040c0, 0x00c060c0, 0x00e040c0, 0x00e060c0,
    0x00808000, 0x0080a000, 0x00a08000, 0x00a0a000, 0x00808040, 0x0080a040, 0x00a08040, 0x00a0a040,
    0x0080c000, 0x0080e000, 0x00a0c000, 0x00a0e000, 0x0080c040, 0x0080e040, 0x00a0c040, 0x00a0e040,
    0x00c08000, 0x00c0a000, 0x00e08000, 0x00e0a000, 0x00c08040, 0x00c0a040, 0x00e08040, 0x00e0a040,
    0x00c0c000, 0x00c0e000, 0x00e0c000, 0x00e0e000, 0x00c0c040, 0x00c0e040, 0x00e0c040, 0x00e0e040,
    0x00808080, 0x0080a080, 0x00a08080, 0x00a0a080, 0x008080c0, 0x0080a0c0, 0x00a080c0, 0x00a0a0c0,
    0x0080c080, 0x0080e080, 0x00a0c080, 0x00a0e080, 0x0080c0c0, 0x0080e0c0, 0x00a0c0c0, 0x00a0e0c0,
    0x00c08080, 0x00c0a080, 0x00e08080, 0x00e0a080, 0x00c080c0, 0x00c0a0c0, 0x00e080c0, 0x00e0a0c0,
    0x00c0c080, 0x00c0e080, 0x00e0c080, 0x00e0e080, 0x00c0c0c0, 0x00c0e0c0, 0x00e0c0c0, 0x00e0e0c0
   ],
   [
    0x00000000, 0x00040000, 0x00000008, 0x00040008, 0x00000800, 0x00040800, 0x00000808, 0x00040808,
    0x00080000, 0x000c0000, 0x00080008, 0x000c0008, 0x00080800, 0x000c0800, 0x00080808, 0x000c0808,
    0x00000010, 0x00040010, 0x00000018, 0x00040018, 0x00000810, 0x00040810, 0x00000818, 0x00040818,
    0x00080010, 0x000c0010, 0x00080018, 0x000c0018, 0x00080810, 0x000c0810, 0x00080818, 0x000c0818,
    0x00001000, 0x00041000, 0x00001008, 0x00041008, 0x00001800, 0x00041800, 0x00001808, 0x00041808,
    0x00081000, 0x000c1000, 0x00081008, 0x000c1008, 0x00081800, 0x000c1800, 0x00081808, 0x000c1808,
    0x00001010, 0x00041010, 0x00001018, 0x00041018, 0x00001810, 0x00041810, 0x00001818, 0x00041818,
    0x00081010, 0x000c1010, 0x00081018, 0x000c1018, 0x00081810, 0x000c1810, 0x00081818, 0x000c1818,
    0x00100000, 0x00140000, 0x00100008, 0x00140008, 0x00100800, 0x00140800, 0x00100808, 0x00140808,
    0x00180000, 0x001c0000, 0x00180008, 0x001c0008, 0x00180800, 0x001c0800, 0x00180808, 0x001c0808,
    0x00100010, 0x00140010, 0x00100018, 0x00140018, 0x00100810, 0x00140810, 0x00100818, 0x00140818,
    0x00180010, 0x001c0010, 0x00180018, 0x001c0018, 0x00180810, 0x001c0810, 0x00180818, 0x001c0818,
    0x00101000, 0x00141000, 0x00101008, 0x00141008, 0x00101800, 0x00141800, 0x00101808, 0x00141808,
    0x00181000, 0x001c1000, 0x00181008, 0x001c1008, 0x00181800, 0x001c1800, 0x00181808, 0x001c1808,
    0x00101010, 0x00141010, 0x00101018, 0x00141018, 0x00101810, 0x00141810, 0x00101818, 0x00141818,
    0x00181010, 0x001c1010, 0x00181018, 0x001c1018, 0x00181810, 0x001c1810, 0x00181818, 0x001c1818,
    0x00000020, 0x00040020, 0x00000028, 0x00040028, 0x00000820, 0x00040820, 0x00000828, 0x00040828,
    0x00080020, 0x000c0020, 0x00080028, 0x000c0028, 0x00080820, 0x000c0820, 0x00080828, 0x000c0828,
    0x00000030, 0x00040030, 0x00000038, 0x00040038, 0x00000830, 0x00040830, 0x00000838, 0x00040838,
    0x00080030, 0x000c0030, 0x00080038, 0x000c0038, 0x00080830, 0x000c0830, 0x00080838, 0x000c0838,
    0x00001020, 0x00041020, 0x00001028, 0x00041028, 0x00001820, 0x00041820, 0x00001828, 0x00041828,
    0x00081020, 0x000c1020, 0x00081028, 0x000c1028, 0x00081820, 0x000c1820, 0x00081828, 0x000c1828,
    0x00001030, 0x00041030, 0x00001038, 0x00041038, 0x00001830, 0x00041830, 0x00001838, 0x00041838,
    0x00081030, 0x000c1030, 0x00081038, 0x000c1038, 0x00081830, 0x000c1830, 0x00081838, 0x000c1838,
    0x00100020, 0x00140020, 0x00100028, 0x00140028, 0x00100820, 0x00140820, 0x00100828, 0x00140828,
    0x00180020, 0x001c0020, 0x00180028, 0x001c0028, 0x00180820, 0x001c0820, 0x00180828, 0x001c0828,
    0x00100030, 0x00140030, 0x00100038, 0x00140038, 0x00100830, 0x00140830, 0x00100838, 0x00140838,
    0x00180030, 0x001c0030, 0x00180038, 0x001c0038, 0x00180830, 0x001c0830, 0x00180838, 0x001c0838,
    0x00101020, 0x00141020, 0x00101028, 0x00141028, 0x00101820, 0x00141820, 0x00101828, 0x00141828,
    0x00181020, 0x001c1020, 0x00181028, 0x001c1028, 0x00181820, 0x001c1820, 0x00181828, 0x001c1828,
    0x00101030, 0x00141030, 0x00101038, 0x00141038, 0x00101830, 0x00141830, 0x00101838, 0x00141838,
    0x00181030, 0x001c1030, 0x00181038, 0x001c1038, 0x00181830, 0x001c1830, 0x00181838, 0x001c1838
   ],
   [
    0x00000000, 0x00000001, 0x00000100, 0x00000101, 0x00010000, 0x00010001, 0x00010100, 0x00010101,
    0x00000002, 0x00000003, 0x00000102, 0x00000103, 0x00010002, 0x00010003, 0x00010102, 0x00010103,
    0x00000200, 0x00000201, 0x00000300, 0x00000301, 0x00010200, 0x00010201, 0x00010300, 0x00010301,
    0x00000202, 0x00000203, 0x00000302, 0x00000303, 0x00010202, 0x00010203, 0x00010302, 0x00010303,
    0x00020000, 0x00020001, 0x00020100, 0x00020101, 0x00030000, 0x00030001, 0x00030100, 0x00030101,
    0x00020002, 0x00020003, 0x00020102, 0x00020103, 0x00030002, 0x00030003, 0x00030102, 0x00030103,
    0x00020200, 0x00020201, 0x00020300, 0x00020301, 0x00030200, 0x00030201, 0x00030300, 0x00030301,
    0x00020202, 0x00020203, 0x00020302, 0x00020303, 0x00030202, 0x00030203, 0x00030302, 0x00030303,
    0x00000004, 0x00000005, 0x00000104, 0x00000105, 0x00010004, 0x00010005, 0x00010104, 0x00010105,
    0x00000006, 0x00000007, 0x00000106, 0x00000107, 0x00010006, 0x00010007, 0x00010106, 0x00010107,
    0x00000204, 0x00000205, 0x00000304, 0x00000305, 0x00010204, 0x00010205, 0x00010304, 0x00010305,
    0x00000206, 0x00000207, 0x00000306, 0x00000307, 0x00010206, 0x00010207, 0x00010306, 0x00010307,
    0x00020004, 0x00020005, 0x00020104, 0x00020105, 0x00030004, 0x00030005, 0x00030104, 0x00030105,
    0x00020006, 0x00020007, 0x00020106, 0x00020107, 0x00030006, 0x00030007, 0x00030106, 0x00030107,
    0x00020204, 0x00020205, 0x00020304, 0x00020305, 0x00030204, 0x00030205, 0x00030304, 0x00030305,
    0x00020206, 0x00020207, 0x00020306, 0x00020307, 0x00030206, 0x00030207, 0x00030306, 0x00030307,
    0x00000400, 0x00000401, 0x00000500, 0x00000501, 0x00010400, 0x00010401, 0x00010500, 0x00010501,
    0x00000402, 0x00000403, 0x00000502, 0x00000503, 0x00010402, 0x00010403, 0x00010502, 0x00010503,
    0x00000600, 0x00000601, 0x00000700, 0x00000701, 0x00010600, 0x00010601, 0x00010700, 0x00010701,
    0x00000602, 0x00000603, 0x00000702, 0x00000703, 0x00010602, 0x00010603, 0x00010702, 0x00010703,
    0x00020400, 0x00020401, 0x00020500, 0x00020501, 0x00030400, 0x00030401, 0x00030500, 0x00030501,
    0x00020402, 0x00020403, 0x00020502, 0x00020503, 0x00030402, 0x00030403, 0x00030502, 0x00030503,
    0x00020600, 0x00020601, 0x00020700, 0x00020701, 0x00030600, 0x00030601, 0x00030700, 0x00030701,
    0x00020602, 0x00020603, 0x00020702, 0x00020703, 0x00030602, 0x00030603, 0x00030702, 0x00030703,
    0x00000404, 0x00000405, 0x00000504, 0x00000505, 0x00010404, 0x00010405, 0x00010504, 0x00010505,
    0x00000406, 0x00000407, 0x00000506, 0x00000507, 0x00010406, 0x00010407, 0x00010506, 0x00010507,
    0x00000604, 0x00000605, 0x00000704, 0x00000705, 0x00010604, 0x00010605, 0x00010704, 0x00010705,
    0x00000606, 0x00000607, 0x00000706, 0x00000707, 0x00010606, 0x00010607, 0x00010706, 0x00010707,
    0x00020404, 0x00020405, 0x00020504, 0x00020505, 0x00030404, 0x00030405, 0x00030504, 0x00030505,
    0x00020406, 0x00020407, 0x00020506, 0x00020507, 0x00030406, 0x00030407, 0x00030506, 0x00030507,
    0x00020604, 0x00020605, 0x00020704, 0x00020705, 0x00030604, 0x00030605, 0x00030704, 0x00030705,
    0x00020606, 0x00020607, 0x00020706, 0x00020707, 0x00030606, 0x00030607, 0x00030706, 0x00030707
  ]]

/-- Generator of `m_sBitMixingLUT` as given in its source doc comment
(part_000 lines 206-223): bit `7 - bit` of the 8-bit sample is routed to
bit `23 - (bit*3 + partition)` of the 24-bit mixed key. -/
def mixingLUTGen (partition sample : Nat) : Nat :=
  (List.range 8).foldl
    (fun accum bit =>
      if sample &&& (128 >>> bit) ≠ 0 then
        accum ||| ((1 <<< 23) >>> (bit * 3 + partition))
      else accum)
    0

/-- Generator of `m_sBitUnmixingLUT` as given in its source doc comment
(part_000 lines 329-348): bit `23 - src_offset` of the mixed key, with
`src_offset = bit + partition*8`, is routed back to channel
`src_offset % 3`, bit `src_offset / 3` from the top. -/
def unmixingLUTGen (partition sample : Nat) : Nat :=
  (List.range 8).foldl
    (fun accum bit =>
      if sample &&& (128 >>> bit) ≠ 0 then
        accum ||| ((1 <<< 23) >>> ((bit + partition * 8) % 3 * 8 + (bit + partition * 8) / 3))
      else accum)
    0

set_option maxRecDepth 100000 in
theorem m_sBitMixingLUT_eq_gen :
    ∀ p < 3, ∀ s < 256, (m_sBitMixingLUT.getD p []).getD s 0 = mixingLUTGen p s := by
  decide

set_option maxRecDepth 100000 in
theorem m_sBitUnmixingLUT_eq_gen :
    ∀ p < 3, ∀ s < 256, (m_sBitUnmixingLUT.getD p []).getD s 0 = unmixingLUTGen p s := by
  decide

/-- Embedding of `ColorPickupInteraction::bitMixColor` (part_000 lines
186-194): three table lookups on the color's bytes, OR-ed together. -/
def bitMixColor (color : Nat) : Nat :=
  (m_sBitMixingLUT.getD 0 []).getD ((color >>> 16) &&& 0xff) 0 |||
  (m_sBitMixingLUT.getD 1 []).getD ((color >>> 8) &&& 0xff) 0 |||
  (m_sBitMixingLUT.getD 2 []).getD (color &&& 0xff) 0

/-- Embedding of `ColorPickupInteraction::bitUnmixColor` (part_000 lines
196-204). -/
def bitUnmixColor (mixed : Nat) : Nat :=
  (m_sBitUnmixingLUT.getD 0 []).getD ((mixed >>> 16) &&& 0xff) 0 |||
  (m_sBitUnmixingLUT.getD 1 []).getD ((mixed >>> 8) &&& 0xff) 0 |||
  (m_sBitUnmixingLUT.getD 2 []).getD (mixed &&& 0xff) 0

theorem byte_lt_256 (c k : Nat) : (c >>> k) &&& 255 < 256 := by
  have h := Nat.and_le_right (n := c >>> k) (m := 255)
  omega

theorem bitMixColor_eq_gen (c : Nat) :
    bitMixColor c =
      mixingLUTGen 0 ((c >>> 16) &&& 255) ||| mixingLUTGen 1 ((c >>> 8) &&& 255) |||
        mixingLUTGen 2 (c &&& 255) := by
  have h2 : c &&& 255 = (c >>> 0) &&& 255 := by rw [Nat.shiftRight_zero]
  rw [bitMixColor, m_sBitMixingLUT_eq_gen 0 (by omega) _ (byte_lt_256 c 16),
    m_sBitMixingLUT_eq_gen 1 (by omega) _ (byte_lt_256 c 8), h2,
    m_sBitMixingLUT_eq_gen 2 (by omega) _ (byte_lt_256 c 0)]

theorem bitUnmixColor_eq_gen (m : Nat) :
    bitUnmixColor m =
      unmixingLUTGen 0 ((m >>> 16) &&& 255) ||| unmixingLUTGen 1 ((m >>> 8) &&& 255) |||
        unmixingLUTGen 2 (m &&& 255) := by
  have h2 : m &&& 255 = (m >>> 0) &&& 255 := by rw [Nat.shiftRight_zero]
  rw [bitUnmixColor, m_sBitUnmixingLUT_eq_gen 0 (by omega) _ (byte_lt_256 m 16),
    m_sBitUnmixingLUT_eq_gen 1 (by omega) _ (byte_lt_256 m 8), h2,
    m_sBitUnmixingLUT_eq_gen 2 (by omega) _ (byte_lt_256 m 0)]

theorem testBit_foldl_lor_ite {β : Type} (l : List β) (c : β → Prop) [DecidablePred c]
    (g : β → Nat) (init j : Nat) :
    (l.foldl (fun acc b => if c b then acc ||| g b else acc) init).testBit j =
      (init.testBit j || l.any fun b => decide (c b) && (g b).testBit j) := by
  induction l generalizing init with
  | nil => simp
  | cons b l ih =>
      rw [List.foldl_cons, ih, List.any_cons]
      by_cases h : c b
      · rw [if_pos h, decide_eq_true h, Nat.testBit_or]
        cases init.testBit j <;> cases (g b).testBit j <;> simp
      · rw [if_neg h, decide_eq_false h, Bool.false_and, Bool.false_or]

theorem and_shift128_ne_zero (s i : Nat) (hi : i < 8) :
    (s &&& (128 >>> i) ≠ 0) ↔ s.testBit (7 - i) = true := by
  have h1 : (128 : Nat) >>> i = 2 ^ (7 - i) := by
    rw [show (128 : Nat) = 2 ^ 7 from rfl, Nat.shiftRight_eq_div_pow,
      Nat.pow_div (by omega) (by norm_num)]
  rw [h1, Nat.and_two_pow]
  cases h : s.testBit (7 - i)
  · simp
  · simp

theorem testBit_bit23_shiftRight (m j : Nat) (hm : m ≤ 23) :
    ((1 <<< 23) >>> m).testBit j = decide (23 - m = j) := by
  have h1 : (1 <<< 23 : Nat) = 2 ^ 23 := by norm_num [Nat.shiftLeft_eq]
  have h2 : (2 : Nat) ^ 23 >>> m = 2 ^ (23 - m) := by
    rw [Nat.shiftRight_eq_div_pow, Nat.pow_div hm (by norm_num)]
  rw [h1, h2, Nat.testBit_two_pow]

theorem testBit_mixingLUTGen (p s j : Nat) (hp : p < 3) :
    (mixingLUTGen p s).testBit j = true ↔
      ∃ i < 8, s.testBit (7 - i) = true ∧ j = 23 - (3 * i + p) := by
  rw [mixingLUTGen, testBit_foldl_lor_ite]
  rw [Nat.zero_testBit, Bool.false_or, List.any_eq_true]
  constructor
  · rintro ⟨i, hmem, hbit⟩
    rw [List.mem_range] at hmem
    rw [Bool.and_eq_true, decide_eq_true_eq] at hbit
    obtain ⟨hc, hw⟩ := hbit
    rw [testBit_bit23_shiftRight _ _ (by omega), decide_eq_true_eq] at hw
    exact ⟨i, hmem, (and_shift128_ne_zero s i hmem).mp hc, by omega⟩
  · rintro ⟨i, hi, hb, hj⟩
    refine ⟨i, List.mem_range.mpr hi, ?_⟩
    rw [Bool.and_eq_true, decide_eq_true_eq]
    refine ⟨(and_shift128_ne_zero s i hi).mpr hb, ?_⟩
    rw [testBit_bit23_shiftRight _ _ (by omega), decide_eq_true_eq]
    omega

theorem testBit_unmixingLUTGen (p s j : Nat) (hp : p < 3) :
    (unmixingLUTGen p s).testBit j = true ↔
      ∃ b < 8, s.testBit (7 - b) = true ∧
        j = 23 - ((b + p * 8) % 3 * 8 + (b + p * 8) / 3) := by
  rw [unmixingLUTGen, testBit_foldl_lor_ite]
  rw [Nat.zero_testBit, Bool.false_or, List.any_eq_true]
  constructor
  · rintro ⟨b, hmem, hbit⟩
    rw [List.mem_range] at hmem
    rw [Bool.and_eq_true, decide_eq_true_eq] at hbit
    obtain ⟨hc, hw⟩ := hbit
    rw [testBit_bit23_shiftRight _ _ (by omega), decide_eq_true_eq] at hw
    exact ⟨b, hmem, (and_shift128_ne_zero s b hmem).mp hc, by omega⟩
  · rintro ⟨b, hb, hs, hj⟩
    refine ⟨b, List.mem_range.mpr hb, ?_⟩
    rw [Bool.and_eq_true, decide_eq_true_eq]
    refine ⟨(and_shift128_ne_zero s b hb).mpr hs, ?_⟩
    rw [testBit_bit23_shiftRight _ _ (by omega), decide_eq_true_eq]
    omega

theorem testBit_byte (c k t : Nat) (ht : t < 8) :
    ((c >>> k) &&& 255).testBit t = c.testBit (k + t) := by
  rw [Nat.testBit_and, Nat.testBit_shiftRight,
    show (255 : Nat) = 2 ^ 8 - 1 from rfl, Nat.testBit_two_pow_sub_one]
  simp [ht]

theorem testBit_bitMixColor (c j : Nat) :
    (bitMixColor c).testBit j = true ↔
      ∃ s < 24, j = 23 - s ∧ c.testBit (23 - (8 * (s % 3) + s / 3)) = true := by
  have hc0 : c &&& 255 = (c >>> 0) &&& 255 := by rw [Nat.shiftRight_zero]
  rw [bitMixColor_eq_gen, Nat.testBit_or, Nat.testBit_or, Bool.or_eq_true, Bool.or_eq_true]
  constructor
  · rintro ((h | h) | h)
    · obtain ⟨i, hi, hbyte, hj⟩ := (testBit_mixingLUTGen 0 _ j (by omega)).mp h
      rw [testBit_byte c 16 (7 - i) (by omega)] at hbyte
      refine ⟨3 * i, by omega, by omega, ?_⟩
      have he : 16 + (7 - i) = 23 - (8 * (3 * i % 3) + 3 * i / 3) := by omega
      rw [← he]
      exact hbyte
    · obtain ⟨i, hi, hbyte, hj⟩ := (testBit_mixingLUTGen 1 _ j (by omega)).mp h
      rw [testBit_byte c 8 (7 - i) (by omega)] at hbyte
      refine ⟨3 * i + 1, by omega, by omega, ?_⟩
      have he : 8 + (7 - i) = 23 - (8 * ((3 * i + 1) % 3) + (3 * i + 1) / 3) := by omega
      rw [← he]
      exact hbyte
    · obtain ⟨i, hi, hbyte, hj⟩ := (testBit_mixingLUTGen 2 _ j (by omega)).mp h
      rw [hc0, testBit_byte c 0 (7 - i) (by omega)] at hbyte
      refine ⟨3 * i + 2, by omega, by omega, ?_⟩
      have he : 0 + (7 - i) = 23 - (8 * ((3 * i + 2) % 3) + (3 * i + 2) / 3) := by omega
      rw [← he]
      exact hbyte
  · rintro ⟨s, hs, hj, hcbit⟩
    have h3 : s % 3 = 0 ∨ s % 3 = 1 ∨ s % 3 = 2 := by omega
    rcases h3 with h3 | h3 | h3
    · left; left
      apply (testBit_mixingLUTGen 0 _ j (by omega)).mpr
      refine ⟨s / 3, by omega, ?_, by omega⟩
      rw [testBit_byte c 16 (7 - s / 3) (by omega)]
      have he : 16 + (7 - s / 3) = 23 - (8 * (s % 3) + s / 3) := by omega
      rw [he]
      exact hcbit
    · left; right
      apply (testBit_mixingLUTGen 1 _ j (by omega)).mpr
      refine ⟨s / 3, by omega, ?_, by omega⟩
      rw [testBit_byte c 8 (7 - s / 3) (by omega)]
      have he : 8 + (7 - s / 3) = 23 - (8 * (s % 3) + s / 3) := by omega
      rw [he]
      exact hcbit
    · right
      apply (testBit_mixingLUTGen 2 _ j (by omega)).mpr
      refine ⟨s / 3, by omega, ?_, by omega⟩
      rw [hc0, testBit_byte c 0 (7 - s / 3) (by omega)]
      have he : 0 + (7 - s / 3) = 23 - (8 * (s % 3) + s / 3) := by omega
      rw [he]
      exact hcbit

theorem testBit_bitUnmixColor (m j : Nat) :
    (bitUnmixColor m).testBit j = true ↔
      ∃ t < 24, j = 23 - (t % 3 * 8 + t / 3) ∧ m.testBit (23 - t) = true := by
  have hm0 : m &&& 255 = (m >>> 0) &&& 255 := by rw [Nat.shiftRight_zero]
  rw [bitUnmixColor_eq_gen, Nat.testBit_or, Nat.testBit_or, Bool.or_eq_true, Bool.or_eq_true]
  constructor
  · rintro ((h | h) | h)
    · obtain ⟨b, hb, hbyte, hj⟩ := (testBit_unmixingLUTGen 0 _ j (by omega)).mp h
      rw [testBit_byte m 16 (7 - b) (by omega)] at hbyte
      refine ⟨b, by omega, by omega, ?_⟩
      have he : 16 + (7 - b) = 23 - b := by omega
      rw [← he]
      exact hbyte
    · obtain ⟨b, hb, hbyte, hj⟩ := (testBit_unmixingLUTGen 1 _ j (by omega)).mp h
      rw [testBit_byte m 8 (7 - b) (by omega)] at hbyte
      refine ⟨b + 8, by omega, by omega, ?_⟩
      have he : 8 + (7 - b) = 23 - (b + 8) := by omega
      rw [← he]
      exact hbyte
    · obtain ⟨b, hb, hbyte, hj⟩ := (testBit_unmixingLUTGen 2 _ j (by omega)).mp h
      rw [hm0, testBit_byte m 0 (7 - b) (by omega)] at hbyte
      refine ⟨b + 16, by omega, by omega, ?_⟩
      have he : 0 + (7 - b) = 23 - (b + 16) := by omega
      rw [← he]
      exact hbyte
  · rintro ⟨t, ht, hj, hmbit⟩
    have h3 : t / 8 = 0 ∨ t / 8 = 1 ∨ t / 8 = 2 := by omega
    rcases h3 with h3 | h3 | h3
    · left; left
      apply (testBit_unmixingLUTGen 0 _ j (by omega)).mpr
      refine ⟨t % 8, by omega, ?_, by omega⟩
      rw [testBit_byte m 16 (7 - t % 8) (by omega)]
      have he : 16 + (7 - t % 8) = 23 - t := by omega
      rw [he]
      exact hmbit
    · left; right
      apply (testBit_unmixingLUTGen 1 _ j (by omega)).mpr
      refine ⟨t % 8, by omega, ?_, by omega⟩
      rw [testBit_byte m 8 (7 - t % 8) (by omega)]
      have he : 8 + (7 - t % 8) = 23 - t := by omega
      rw [he]
      exact hmbit
    · right
      apply (testBit_unmixingLUTGen 2 _ j (by omega)).mpr
      refine ⟨t % 8, by omega, ?_, by omega⟩
      rw [hm0, testBit_byte m 0 (7 - t % 8) (by omega)]
      have he : 0 + (7 - t % 8) = 23 - t := by omega
      rw [he]
      exact hmbit

/-- C1: for every 24-bit RGB color value, un-mixing the bit-mixed key
through the two lookup tables recovers the color exactly. -/
theorem bitUnmixColor_bitMixColor (c : Nat) (hc : c < 2 ^ 24) :
    bitUnmixColor (bitMixColor c) = c := by
  apply Nat.eq_of_testBit_eq
  intro j
  by_cases hj : j < 24
  · have h1 : (bitUnmixColor (bitMixColor c)).testBit j = true ↔ c.testBit j = true := by
      rw [testBit_bitUnmixColor]
      constructor
      · rintro ⟨t, ht, hjt, hmix⟩
        obtain ⟨s, hs, hindex, hcbit⟩ := (testBit_bitMixColor c (23 - t)).mp hmix
        have hst : s = t := by omega
        subst hst
        have he : 23 - (8 * (s % 3) + s / 3) = j := by omega
        rw [he] at hcbit
        exact hcbit
      · intro hcj
        refine ⟨3 * ((23 - j) % 8) + (23 - j) / 8, by omega, by omega, ?_⟩
        apply (testBit_bitMixColor c _).mpr
        refine ⟨3 * ((23 - j) % 8) + (23 - j) / 8, by omega, rfl, ?_⟩
        have he : 23 - (8 * ((3 * ((23 - j) % 8) + (23 - j) / 8) % 3) +
            (3 * ((23 - j) % 8) + (23 - j) / 8) / 3) = j := by omega
        rw [he]
        exact hcj
    cases h2 : c.testBit j
    · cases h3 : (bitUnmixColor (bitMixColor c)).testBit j
      · rfl
      · rw [h1.mp h3] at h2
        exact absurd h2 (by simp)
    · exact h1.mpr h2
  · have hlhs : (bitUnmixColor (bitMixColor c)).testBit j = false := by
      cases h : (bitUnmixColor (bitMixColor c)).testBit j
      · rfl
      · obtain ⟨t, ht, hjt, _⟩ := (testBit_bitUnmixColor _ j).mp h
        omega
    have hrhs : c.testBit j = false :=
      Nat.testBit_lt_two_pow
        (lt_of_lt_of_le hc (Nat.pow_le_pow_right (by norm_num) (by omega)))
    rw [hlhs, hrhs]

/-- Witness for C1 at the concrete 24-bit color 0xABCDEF. -/
theorem bitUnmixColor_bitMixColor_witness :
    (0xABCDEF : Nat) < 2 ^ 24 ∧ bitUnmixColor (bitMixColor 0xABCDEF) = 0xABCDEF :=
  ⟨by norm_num, bitUnmixColor_bitMixColor 0xABCDEF (by norm_num)⟩

/- ============ ColorPickupInteraction.cpp : takeColor ============ -/

/-- State observed by `ColorPickupInteraction::takeColor`: the target
zone's fill-color property, the zone set's default fill color, and the
number of performed commits (the commit history length). -/
structure PickupState where
  fillColor : Option Nat
  defaultFillColor : Option Nat
  commits : Nat
deriving DecidableEq, Repr

/-- Embedding of the sampling loops of `takeColor` (part_000 lines
136-148): scan the grab rectangle row-major and push the bit-mixed key of
every pixel within the circular mask, exactly as the nested `for` loops
with `push_back` do.  `img x y` is the 32-bit pixel read from the
`Format_RGB32` image. -/
def takeColorSampleLoop (w h : Nat) (img : Nat → Nat → Nat) : List Nat :=
  (List.range h).foldl
    (fun (acc : List Nat) (y : Nat) =>
      (List.range w).foldl
        (fun (acc2 : List Nat) (x : Nat) =>
          if ((y : Int) - ((h / 2 : Nat) : Int)) * ((y : Int) - ((h / 2 : Nat) : Int)) +
              ((x : Int) - ((w / 2 : Nat) : Int)) * ((x : Int) - ((w / 2 : Nat) : Int)) ≤
              ((w / 2 : Nat) : Int) * ((h / 2 : Nat) : Int) then
            acc2 ++ [bitMixColor (img x y)]
          else acc2)
        acc)
    []

/-- The circular-mask condition of `takeColor`, as the claim states it:
`dx*dx + dy*dy ≤ x_center * y_center` with `x_center = width/2` and
`y_center = height/2` in C integer arithmetic. -/
def inPickupCircle (w h x y : Nat) : Prop :=
  ((x : Int) - ((w / 2 : Nat) : Int)) * ((x : Int) - ((w / 2 : Nat) : Int)) +
    ((y : Int) - ((h / 2 : Nat) : Int)) * ((y : Int) - ((h / 2 : Nat) : Int)) ≤
    ((w / 2 : Nat) : Int) * ((h / 2 : Nat) : Int)

instance (w h x y : Nat) : Decidable (inPickupCircle w h x y) := by
  unfold inPickupCircle
  infer_instance


/-- The sampled coordinates of the grab rectangle, in the scan order of
the loops. -/
def pickupCoords (w h : Nat) : List (Nat × Nat) :=
  (List.range h).bind fun y =>
    (List.range w).filterMap fun x =>
      if inPickupCircle w h x y then some (x, y) else none

/-- Embedding of `ColorPickupInteraction::takeColor` (part_000 lines
111-165) on the captured pixel block: a null pixmap (`none`) or an empty
sample set leaves the state untouched; otherwise the middle-ranked
bit-mixed key is selected (`std::nth_element` at index `size/2`, modelled
by its contract: the element a sorted copy has at that index), un-mixed,
written to the zone's fill color and to the default properties, and one
commit is performed. -/
def takeColor (w h : Nat) (pixmap : Option (Nat → Nat → Nat)) (st : PickupState) :
    PickupState :=
  match pixmap with
  | none => st
  | some img =>
      let keys := takeColorSampleLoop w h img
      if keys.isEmpty then st
      else
        let sorted := keys.mergeSort fun a b => decide (a ≤ b)
        let color := bitUnmixColor (sorted.getD (keys.length / 2) 0)
        { fillColor := some color
          defaultFillColor := some color
          commits := st.commits + 1 }

theorem foldl_append_ite {β γ : Type} (l : List β) (c : β → Prop) [DecidablePred c]
    (g : β → γ) (acc : List γ) :
    l.foldl (fun a x => if c x then a ++ [g x] else a) acc =
      acc ++ l.filterMap fun x => if c x then some (g x) else none := by
  induction l generalizing acc with
  | nil => simp
  | cons x l ih =>
      rw [List.foldl_cons]
      by_cases h : c x
      · rw [if_pos h, ih, List.filterMap_cons, if_pos h, List.append_assoc]
        rfl
      · rw [if_neg h, ih, List.filterMap_cons, if_neg h]

theorem foldl_append_rows {β γ : Type} (l : List β) (f : β → List γ) (acc : List γ) :
    l.foldl (fun a y => a ++ f y) acc = acc ++ l.bind f := by
  induction l generalizing acc with
  | nil => simp
  | cons y l ih =>
      rw [List.foldl_cons, ih]
      simp [List.append_assoc]

theorem takeColorSampleLoop_eq (w h : Nat) (img : Nat → Nat → Nat) :
    takeColorSampleLoop w h img =
      (pickupCoords w h).map fun p => bitMixColor (img p.1 p.2) := by
  have hcond : ∀ x y : Nat,
      (((y : Int) - ((h / 2 : Nat) : Int)) * ((y : Int) - ((h / 2 : Nat) : Int)) +
          ((x : Int) - ((w / 2 : Nat) : Int)) * ((x : Int) - ((w / 2 : Nat) : Int)) ≤
          ((w / 2 : Nat) : Int) * ((h / 2 : Nat) : Int)) = inPickupCircle w h x y := by
    intro x y
    rw [inPickupCircle, add_comm]
  rw [takeColorSampleLoop]
  have hrow : ∀ (y : Nat) (acc : List Nat),
      (List.range w).foldl
        (fun (acc2 : List Nat) (x : Nat) =>
          if ((y : Int) - ((h / 2 : Nat) : Int)) * ((y : Int) - ((h / 2 : Nat) : Int)) +
              ((x : Int) - ((w / 2 : Nat) : Int)) * ((x : Int) - ((w / 2 : Nat) : Int)) ≤
              ((w / 2 : Nat) : Int) * ((h / 2 : Nat) : Int) then
            acc2 ++ [bitMixColor (img x y)]
          else acc2)
        acc =
      acc ++ ((List.range w).filterMap fun x =>
        if inPickupCircle w h x y then some (x, y) else none).map
          fun p => bitMixColor (img p.1 p.2) := by
    intro y acc
    simp only [hcond]
    rw [foldl_append_ite (List.range w) (fun x => inPickupCircle w h x y)
      (fun x => bitMixColor (img x y)) acc]
    rw [List.map_filterMap]
    have harg : (fun x : Nat => if inPickupCircle w h x y then
          some (bitMixColor (img x y)) else none) =
        fun x : Nat => Option.map (fun p : Nat × Nat => bitMixColor (img p.1 p.2))
          (if inPickupCircle w h x y then some (x, y) else none) := by
      funext x
      by_cases hx : inPickupCircle w h x y
      · rw [if_pos hx, if_pos hx]
        rfl
      · rw [if_neg hx, if_neg hx]
        rfl
    rw [harg]
  simp only [hrow]
  rw [foldl_append_rows (List.range h)
    (fun y => ((List.range w).filterMap fun x =>
      if inPickupCircle w h x y then some (x, y) else none).map
        fun p => bitMixColor (img p.1 p.2)) []]
  rw [List.nil_append, pickupCoords, List.map_bind]

theorem mem_pickupCoords (w h x y : Nat) :
    (x, y) ∈ pickupCoords w h ↔ x < w ∧ y < h ∧ inPickupCircle w h x y := by
  rw [pickupCoords]
  simp only [List.mem_bind, List.mem_filterMap, List.mem_range]
  constructor
  · rintro ⟨b, hb, a, ha, heq⟩
    by_cases hc : inPickupCircle w h a b
    · rw [if_pos hc] at heq
      obtain ⟨rfl, rfl⟩ : a = x ∧ b = y := by
        constructor <;> [exact congrArg Prod.fst (Option.some.inj heq);
          exact congrArg Prod.snd (Option.some.inj heq)]
      exact ⟨ha, hb, hc⟩
    · rw [if_neg hc] at heq
      exact absurd heq (by simp)
  · rintro ⟨hx, hy, hc⟩
    exact ⟨y, hy, x, hx, by rw [if_pos hc]⟩

theorem sorted_rank_counts (s : List Nat) (i : Nat) (hi : i < s.length)
    (hs : List.Pairwise (fun a b => decide (a ≤ b) = true) s) :
    s.countP (fun a => decide (a < s[i])) ≤ i ∧
      i < s.countP fun a => decide (a ≤ s[i]) := by
  have hpair : ∀ j1 j2 (h1 : j1 < s.length) (h2 : j2 < s.length), j1 ≤ j2 →
      s[j1] ≤ s[j2] := by
    intro j1 j2 h1 h2 hle
    rcases Nat.lt_or_ge j1 j2 with hlt | hge
    · have := List.pairwise_iff_getElem.mp hs j1 j2 h1 h2 hlt
      simpa using this
    · have : j1 = j2 := by omega
      subst this
      exact le_refl _
  have hsplit : ∀ p : Nat → Bool,
      s.countP p = (s.take i).countP p + (s.drop i).countP p := by
    intro p
    conv_lhs => rw [← List.take_append_drop i s]
    rw [List.countP_append]
  have htklen : (s.take i).length = i := by
    rw [List.length_take]
    omega
  constructor
  · rw [hsplit]
    have hdrop : (s.drop i).countP (fun a => decide (a < s[i])) = 0 := by
      rw [List.countP_eq_zero]
      intro a ha
      obtain ⟨j, hj, rfl⟩ := List.mem_iff_getElem.mp ha
      rw [List.getElem_drop]
      have hij : i + j < s.length := by
        have := s.length_drop i
        omega
      have := hpair i (i + j) hi hij (by omega)
      simp
      omega
    rw [hdrop]
    have := (s.take i).countP_le_length fun a => decide (a < s[i])
    omega
  · rw [hsplit]
    have htake : (s.take i).countP (fun a => decide (a ≤ s[i])) = i := by
      have hcnt : (s.take i).countP (fun a => decide (a ≤ s[i])) = (s.take i).length := by
        rw [List.countP_eq_length]
        intro a ha
        obtain ⟨j, hj, rfl⟩ := List.mem_iff_getElem.mp ha
        rw [List.getElem_take]
        have hjlen : j < s.length := by
          rw [htklen] at hj
          omega
        have := hpair j i hjlen hi (by rw [htklen] at hj; omega)
        simpa using this
      rw [hcnt, htklen]
    have hdrop : 0 < (s.drop i).countP (fun a => decide (a ≤ s[i])) := by
      rw [List.countP_pos_iff]
      refine ⟨s[i], ?_, by simp⟩
      have h0 : 0 < (s.drop i).length := by
        rw [List.length_drop]
        omega
      have : (s.drop i)[0] = s[i] := by
        rw [List.getElem_drop]
        congr 1
      rw [← this]
      exact List.getElem_mem h0
    omega

/-- C5: a pixel (x, y) of the grab rectangle is sampled iff it satisfies
the circular mask `dx*dx + dy*dy <= x_center * y_center`, and for a
non-empty sample set the written color is `bitUnmixColor` of the element
of rank `floor(n/2)` (by unsigned ordering) among the `n` bit-mixed keys:
a key `k` of the multiset with at most `n/2` keys strictly below it and
more than `n/2` keys at or below it. -/
theorem takeColor_mask_and_median (w h : Nat) (img : Nat → Nat → Nat) (st : PickupState)
    (hne : takeColorSampleLoop w h img ≠ []) :
    (∀ x y : Nat, (x, y) ∈ pickupCoords w h ↔ x < w ∧ y < h ∧ inPickupCircle w h x y) ∧
    takeColorSampleLoop w h img =
      ((pickupCoords w h).map fun p => bitMixColor (img p.1 p.2)) ∧
    ∃ k, k ∈ takeColorSampleLoop w h img ∧
      (takeColorSampleLoop w h img).countP (fun a => decide (a < k)) ≤
        (takeColorSampleLoop w h img).length / 2 ∧
      (takeColorSampleLoop w h img).length / 2 <
        (takeColorSampleLoop w h img).countP (fun a => decide (a ≤ k)) ∧
      takeColor w h (some img) st =
        { fillColor := some (bitUnmixColor k)
          defaultFillColor := some (bitUnmixColor k)
          commits := st.commits + 1 } := by
  refine ⟨mem_pickupCoords w h, takeColorSampleLoop_eq w h img, ?_⟩
  set keys := takeColorSampleLoop w h img with hkeys
  set sorted := keys.mergeSort (fun a b => decide (a ≤ b)) with hsorted
  have hperm : sorted.Perm keys := List.mergeSort_perm keys _
  have hlen : sorted.length = keys.length := hperm.length_eq
  have hpos : 0 < keys.length := List.length_pos.mpr hne
  have hi : keys.length / 2 < sorted.length := by omega
  have hpair : List.Pairwise (fun a b : Nat => decide (a ≤ b) = true) sorted :=
    List.sorted_mergeSort
      (by
        intro a b c hab hbc
        simp only [decide_eq_true_eq] at hab hbc ⊢
        omega)
      (by
        intro a b
        simp only [Bool.or_eq_true, decide_eq_true_eq]
        omega)
      keys
  refine ⟨sorted[keys.length / 2], ?_, ?_, ?_, ?_⟩
  · exact hperm.subset (List.getElem_mem hi)
  · rw [← hperm.countP_eq]
    exact (sorted_rank_counts sorted (keys.length / 2) hi hpair).1
  · rw [← hperm.countP_eq]
    exact (sorted_rank_counts sorted (keys.length / 2) hi hpair).2
  · rw [takeColor]
    rw [if_neg (by simp [List.isEmpty_iff, hne])]
    show ({ fillColor := some (bitUnmixColor (sorted.getD (keys.length / 2) 0))
            defaultFillColor := some (bitUnmixColor (sorted.getD (keys.length / 2) 0))
            commits := st.commits + 1 } : PickupState) =
      { fillColor := some (bitUnmixColor sorted[keys.length / 2])
        defaultFillColor := some (bitUnmixColor sorted[keys.length / 2])
        commits := st.commits + 1 }
    rw [List.getD_eq_getElem sorted 0 hi]

/-- Witness for C5 on a 1x1 grab rectangle with a black image. -/
theorem takeColor_mask_and_median_witness :
    takeColorSampleLoop 1 1 (fun _ _ => 0) ≠ [] ∧
    ((∀ x y : Nat, (x, y) ∈ pickupCoords 1 1 ↔ x < 1 ∧ y < 1 ∧ inPickupCircle 1 1 x y) ∧
    takeColorSampleLoop 1 1 (fun _ _ => 0) =
      ((pickupCoords 1 1).map fun p => bitMixColor ((fun _ _ => 0) p.1 p.2)) ∧
    ∃ k, k ∈ takeColorSampleLoop 1 1 (fun _ _ => 0) ∧
      (takeColorSampleLoop 1 1 (fun _ _ => 0)).countP (fun a => decide (a < k)) ≤
        (takeColorSampleLoop 1 1 (fun _ _ => 0)).length / 2 ∧
      (takeColorSampleLoop 1 1 (fun _ _ => 0)).length / 2 <
        (takeColorSampleLoop 1 1 (fun _ _ => 0)).countP (fun a => decide (a ≤ k)) ∧
      takeColor 1 1 (some fun _ _ => 0) ⟨none, none, 0⟩ =
        { fillColor := some (bitUnmixColor k)
          defaultFillColor := some (bitUnmixColor k)
          commits := (0 : Nat) + 1 }) :=
  ⟨by decide, takeColor_mask_and_median 1 1 (fun _ _ => 0) ⟨none, none, 0⟩ (by decide)⟩

/-- C6: an empty pixel capture (null pixmap, or no pixel of the grab
rectangle passing the circular mask) makes `takeColor` return with no
state change: fill-color property, default properties and commit history
are untouched. -/
theorem takeColor_empty_capture_no_change (w h : Nat)
    (img : Nat → Nat → Nat) (st : PickupState)
    (hempty : takeColorSampleLoop w h img = []) :
    takeColor w h none st = st ∧ takeColor w h (some img) st = st := by
  refine ⟨rfl, ?_⟩
  rw [takeColor, hempty]
  rfl

/-- Witness for C6 with a 0x0 grab rectangle (no sampled pixel). -/
theorem takeColor_empty_capture_no_change_witness :
    takeColorSampleLoop 0 0 (fun _ _ => 0) = [] ∧
    (takeColor 0 0 none ⟨some 5, some 6, 7⟩ = ⟨some 5, some 6, 7⟩ ∧
      takeColor 0 0 (some fun _ _ => 0) ⟨some 5, some 6, 7⟩ = ⟨some 5, some 6, 7⟩) :=
  ⟨rfl, takeColor_empty_capture_no_change 0 0 (fun _ _ => 0) ⟨some 5, some 6, 7⟩ rfl⟩

/- ========== Proximity arbitration (spec-modelled) ========== -/

/-- Modelled from the spec: the `Proximity` value of the interaction
library (whose source is not in the excerpt) — a squared on-screen
distance, with the infinite sentinel (`⊤`) standing for "no candidate"
(spec section 3). -/
abbrev Proximity : Type := WithTop ℚ

/-- Squared Euclidean distance of two points; `Proximity(point, point)`
stores exactly this. -/
def sqDist (a b : ℚ × ℚ) : ℚ :=
  (a.1 - b.1) * (a.1 - b.1) + (a.2 - b.2) * (a.2 - b.2)

/-- Modelled from the spec (section 4.1): `Proximity::pointAndLineSegment`
— squared distance from the perpendicular foot clamped to the segment
endpoints, a zero-length segment treated as a point; also returns the
closest point for highlight rendering. -/
def pointAndLineSegment (pt a b : ℚ × ℚ) : ℚ × (ℚ × ℚ) :=
  let d := sqDist a b
  if d = 0 then (sqDist pt a, a)
  else
    let t := ((pt.1 - a.1) * (b.1 - a.1) + (pt.2 - a.2) * (b.2 - a.2)) / d
    let t := max 0 (min 1 t)
    let c := (a.1 + t * (b.1 - a.1), a.2 + t * (b.2 - a.2))
    (sqDist pt c, c)

/-- Modelled from the spec: one proximity claim registered in the current
event cycle (`InteractionState::updateProximity`): the claiming object's
identity, its proximity value and its integer priority. -/
structure ProximityClaim where
  handler : Nat
  proximity : Proximity
  priority : Int
deriving DecidableEq, Repr

/-- Modelled from the spec (sections 3 and 4.2): whether a newly
registered claim takes leadership from the current best.  Section 3 fixes
the direction: vertex claims (priority 1) are preferred over segment
claims (priority 0) at equal distance and zone-interior claims (priority
-1) always lose to an edge/vertex claim at finite distance, so a claim
wins on strictly greater priority, then on strictly smaller distance;
the infinite sentinel ("no candidate") never competes. -/
def betterProximity (c best : ProximityClaim) : Bool :=
  decide (c.proximity ≠ ⊤) &&
    (decide (best.priority < c.priority) ||
      (decide (c.priority = best.priority) && decide (c.proximity < best.proximity)))

/-- Fold step of leadership resolution: the first finite claim becomes
leader, later claims replace it only when strictly better (ties keep the
earlier claim — the deterministic registration-order tie-break of spec
section 9). -/
def pickLeader (acc : Option ProximityClaim) (c : ProximityClaim) : Option ProximityClaim :=
  match acc with
  | none => if c.proximity ≠ ⊤ then some c else none
  | some b => if betterProximity c b then some c else some b

/-- Modelled from the spec: the proximity leader of one event cycle,
resolved over the claims in registration order. -/
def leader (claims : List ProximityClaim) : Option ProximityClaim :=
  claims.foldl pickLeader none

/-- C3 counterexample: the claim's comparison rule "priority is the
primary key with LOWER value winning" is false of the arbitration: at
equal distance 5, the priority-1 (vertex) claim leads and the priority-0
(segment) claim — which the lower-wins rule would elect — does not. -/
theorem lower_priority_wins_refuted :
    leader [⟨0, some 5, 1⟩, ⟨1, some 5, 0⟩] = some ⟨0, some 5, 1⟩ ∧
    leader [⟨0, some 5, 1⟩, ⟨1, some 5, 0⟩] ≠ some ⟨1, some 5, 0⟩ ∧
    (⟨1, some 5, 0⟩ : ProximityClaim).priority < (⟨0, some 5, 1⟩ : ProximityClaim).priority := by
  refine ⟨?_, ?_, ?_⟩ <;> decide

/-- C3 (amended): for two claims registered in the same cycle at the same
finite distance, the vertex claim (priority 1) never loses leadership to
the segment claim (priority 0), in either registration order: priority is
the primary comparison key with HIGHER value winning, distance the
secondary with smaller winning. -/
theorem vertex_never_loses_to_segment_at_equal_distance (d : ℚ) (cv cs : ProximityClaim)
    (hv : cv.priority = 1) (hs : cs.priority = 0)
    (hvd : cv.proximity = some d) (hsd : cs.proximity = some d) :
    leader [cv, cs] = some cv ∧ leader [cs, cv] = some cv := by
  constructor
  · rw [leader, List.foldl_cons, List.foldl_cons, List.foldl_nil]
    rw [pickLeader, if_pos (by rw [hvd]; exact WithTop.coe_ne_top)]
    rw [pickLeader, if_neg]
    rw [betterProximity, hv, hs]
    simp
  · rw [leader, List.foldl_cons, List.foldl_cons, List.foldl_nil]
    rw [pickLeader, if_pos (by rw [hsd]; exact WithTop.coe_ne_top)]
    rw [pickLeader, if_pos]
    rw [betterProximity, hv, hs, hvd]
    simp

/-- Witness for the amended C3 at distance 5. -/
theorem vertex_never_loses_to_segment_witness :
    leader [⟨0, some 5, 1⟩, ⟨1, some 5, 0⟩] = some ⟨0, some 5, 1⟩ ∧
    leader [⟨1, some 5, 0⟩, ⟨0, some 5, 1⟩] = some ⟨0, some 5, 1⟩ :=
  vertex_never_loses_to_segment_at_equal_distance 5 ⟨0, some 5, 1⟩ ⟨1, some 5, 0⟩
    rfl rfl rfl rfl

/- ===== ZoneDefaultInteraction.cpp : onProximityUpdate ===== -/

/-- A zone's editable spline, as its closed vertex list in image space. -/
abbrev Spline : Type := List (ℚ × ℚ)

/-- Claim identity of `m_vertexProximity`. -/
def vertexProximityId : Nat := 0

/-- Claim identity of `m_segmentProximity`. -/
def segmentProximityId : Nat := 1

/-- Claim identity of `m_zoneAreaProximity`. -/
def zoneAreaProximityId : Nat := 2

/-- The handler state written by
`ZoneDefaultInteraction::onProximityUpdate` plus the claims it registers
with the interaction state in the same cycle. -/
structure ZoneUpdateResult where
  nearestVertex : Option (Nat × Nat)
  nearestVertexSpline : Option Nat
  nearestSegment : Option (Nat × Nat)
  nearestSegmentSpline : Option Nat
  screenPointOnSegment : Option (ℚ × ℚ)
  nearestZoneSpline : Option Nat
  bestVertexProximity : Proximity
  bestSegmentProximity : Proximity
  claims : List ProximityClaim
deriving DecidableEq, Repr

/-- A finite proximity value. -/
def toProx (x : ℚ) : Proximity := WithTop.some x

/-- The vertex loop body (ZoneDefaultInteraction.cpp lines 206-215): a
strictly closer vertex replaces the best candidate. -/
def vertexStep (mousePos : ℚ × ℚ) (toScreen : ℚ × ℚ → ℚ × ℚ) (zi : Nat)
    (st : ZoneUpdateResult) (v : Nat × (ℚ × ℚ)) : ZoneUpdateResult :=
  let prox : Proximity := toProx (sqDist mousePos (toScreen v.2))
  if prox < st.bestVertexProximity then
    { st with nearestVertex := some (zi, v.1), nearestVertexSpline := some zi,
              bestVertexProximity := prox }
  else st

/-- The segment loop body (ZoneDefaultInteraction.cpp lines 218-229):
segment `si` of the closed polygon joins vertex `si` to vertex
`(si+1) mod n`; a strictly closer segment replaces the best candidate and
remembers the closest point on it. -/
def segmentStep (mousePos : ℚ × ℚ) (toScreen : ℚ × ℚ → ℚ × ℚ) (spline : Spline) (zi : Nat)
    (st : ZoneUpdateResult) (si : Nat) : ZoneUpdateResult :=
  let a := toScreen (spline.getD si (0, 0))
  let b := toScreen (spline.getD ((si + 1) % spline.length) (0, 0))
  let pr := pointAndLineSegment mousePos a b
  let prox : Proximity := toProx pr.1
  if prox < st.bestSegmentProximity then
    { st with nearestSegment := some (zi, si), nearestSegmentSpline := some zi,
              bestSegmentProximity := prox, screenPointOnSegment := some pr.2 }
  else st

/-- Per-zone body of the main loop (ZoneDefaultInteraction.cpp lines
192-230): containment check (only until the first hit), then all
vertices, then all segments.  `contains` is the external
`QPainterPath::contains` winding-fill test of the rendering toolkit. -/
def zoneStep (mousePos : ℚ × ℚ) (toScreen : ℚ × ℚ → ℚ × ℚ) (imageMousePos : ℚ × ℚ)
    (contains : Spline → ℚ × ℚ → Bool)
    (st : ZoneUpdateResult) (zone : Nat × Spline) : ZoneUpdateResult :=
  let st1 :=
    if st.nearestZoneSpline.isNone && contains zone.2 imageMousePos then
      { st with nearestZoneSpline := some zone.1 }
    else st
  let st2 := zone.2.enum.foldl (vertexStep mousePos toScreen zone.1) st1
  (List.range zone.2.length).foldl (segmentStep mousePos toScreen zone.2 zone.1) st2

/-- The reset handler state at the start of a proximity update
(ZoneDefaultInteraction.cpp lines 182-190): no candidates, infinite best
proximities, and the cycle's claim set cleared. -/
def resetState : ZoneUpdateResult :=
  { nearestVertex := none, nearestVertexSpline := none, nearestSegment := none,
    nearestSegmentSpline := none, screenPointOnSegment := none, nearestZoneSpline := none,
    bestVertexProximity := ⊤, bestSegmentProximity := ⊤, claims := [] }

/-- Embedding of `ZoneDefaultInteraction::onProximityUpdate`
(ZoneDefaultInteraction.cpp lines 174-251): scan all zones, then register
the vertex claim at priority 1, the segment claim at priority 0 and —
only when some zone contains the pointer — the zone-interior claim at
priority -1 with the minimum of the two best proximities as its distance.
(The cursor-shape bookkeeping of lines 238-250 touches only the external
`QCursor` and is outside the model.) -/
def onProximityUpdate (zones : List Spline) (mousePos : ℚ × ℚ)
    (toScreen fromScreen : ℚ × ℚ → ℚ × ℚ)
    (contains : Spline → ℚ × ℚ → Bool) : ZoneUpdateResult :=
  let imageMousePos := fromScreen mousePos
  let r := zones.enum.foldl (zoneStep mousePos toScreen imageMousePos contains) resetState
  let r := { r with claims := r.claims ++
    [(⟨vertexProximityId, r.bestVertexProximity, 1⟩ : ProximityClaim)] }
  let r := { r with claims := r.claims ++
    [(⟨segmentProximityId, r.bestSegmentProximity, 0⟩ : ProximityClaim)] }
  if r.nearestZoneSpline.isSome then
    { r with claims := r.claims ++
        [(⟨zoneAreaProximityId, min r.bestVertexProximity r.bestSegmentProximity,
            -1⟩ : ProximityClaim)] }
  else r


theorem coe_eq_toProx (q : ℚ) : (↑q : Proximity) = toProx q := rfl

theorem vertexStep_pos (mousePos : ℚ × ℚ) (toScreen : ℚ × ℚ → ℚ × ℚ) (zi : Nat)
    (st : ZoneUpdateResult) (v : Nat × (ℚ × ℚ))
    (h : toProx (sqDist mousePos (toScreen v.2)) < st.bestVertexProximity) :
    vertexStep mousePos toScreen zi st v =
      { st with nearestVertex := some (zi, v.1), nearestVertexSpline := some zi,
                bestVertexProximity := toProx (sqDist mousePos (toScreen v.2)) } := by
  rw [vertexStep]
  exact if_pos h

theorem vertexStep_neg (mousePos : ℚ × ℚ) (toScreen : ℚ × ℚ → ℚ × ℚ) (zi : Nat)
    (st : ZoneUpdateResult) (v : Nat × (ℚ × ℚ))
    (h : ¬toProx (sqDist mousePos (toScreen v.2)) < st.bestVertexProximity) :
    vertexStep mousePos toScreen zi st v = st := by
  rw [vertexStep]
  exact if_neg h

theorem vertexStep_foldl (mousePos : ℚ × ℚ) (toScreen : ℚ × ℚ → ℚ × ℚ) (zi : Nat)
    (l : List (Nat × (ℚ × ℚ))) (st : ZoneUpdateResult) :
    (l.foldl (vertexStep mousePos toScreen zi) st).bestVertexProximity =
      min st.bestVertexProximity
        ((l.map fun p => sqDist mousePos (toScreen p.2)).minimum) ∧
    (l.foldl (vertexStep mousePos toScreen zi) st).bestSegmentProximity =
      st.bestSegmentProximity ∧
    (l.foldl (vertexStep mousePos toScreen zi) st).nearestZoneSpline =
      st.nearestZoneSpline ∧
    (l.foldl (vertexStep mousePos toScreen zi) st).claims = st.claims := by
  induction l generalizing st with
  | nil =>
      refine ⟨?_, rfl, rfl, rfl⟩
      rw [List.map_nil, List.minimum_nil]
      exact (min_eq_left le_top).symm
  | cons p l ih =>
      rw [List.foldl_cons, List.map_cons, List.minimum_cons, coe_eq_toProx]
      by_cases h : toProx (sqDist mousePos (toScreen p.2)) < st.bestVertexProximity
      · rw [vertexStep_pos mousePos toScreen zi st p h]
        obtain ⟨h1, h2, h3, h4⟩ := ih _
        refine ⟨?_, h2, h3, h4⟩
        rw [h1]
        rw [← min_assoc]
        rw [min_eq_right (le_of_lt h)]
      · rw [vertexStep_neg mousePos toScreen zi st p h]
        obtain ⟨h1, h2, h3, h4⟩ := ih st
        refine ⟨?_, h2, h3, h4⟩
        rw [h1]
        rw [← min_assoc]
        rw [min_eq_left (not_lt.mp h)]

/-- The squared on-screen proximity of segment `si` of a spline. -/
def segmentProxVal (mousePos : ℚ × ℚ) (toScreen : ℚ × ℚ → ℚ × ℚ) (spline : Spline)
    (si : Nat) : ℚ :=
  (pointAndLineSegment mousePos (toScreen (spline.getD si (0, 0)))
    (toScreen (spline.getD ((si + 1) % spline.length) (0, 0)))).1

theorem segmentStep_pos (mousePos : ℚ × ℚ) (toScreen : ℚ × ℚ → ℚ × ℚ) (spline : Spline)
    (zi : Nat) (st : ZoneUpdateResult) (si : Nat)
    (h : toProx (segmentProxVal mousePos toScreen spline si) < st.bestSegmentProximity) :
    segmentStep mousePos toScreen spline zi st si =
      { st with nearestSegment := some (zi, si), nearestSegmentSpline := some zi,
                bestSegmentProximity := toProx (segmentProxVal mousePos toScreen spline si),
                screenPointOnSegment :=
                  some (pointAndLineSegment mousePos (toScreen (spline.getD si (0, 0)))
                    (toScreen (spline.getD ((si + 1) % spline.length) (0, 0)))).2 } := by
  rw [segmentStep]
  exact if_pos h

theorem segmentStep_neg (mousePos : ℚ × ℚ) (toScreen : ℚ × ℚ → ℚ × ℚ) (spline : Spline)
    (zi : Nat) (st : ZoneUpdateResult) (si : Nat)
    (h : ¬toProx (segmentProxVal mousePos toScreen spline si) < st.bestSegmentProximity) :
    segmentStep mousePos toScreen spline zi st si = st := by
  rw [segmentStep]
  exact if_neg h

theorem segmentStep_foldl (mousePos : ℚ × ℚ) (toScreen : ℚ × ℚ → ℚ × ℚ) (spline : Spline)
    (zi : Nat) (l : List Nat) (st : ZoneUpdateResult) :
    (l.foldl (segmentStep mousePos toScreen spline zi) st).bestSegmentProximity =
      min st.bestSegmentProximity
        ((l.map fun si => segmentProxVal mousePos toScreen spline si).minimum) ∧
    (l.foldl (segmentStep mousePos toScreen spline zi) st).bestVertexProximity =
      st.bestVertexProximity ∧
    (l.foldl (segmentStep mousePos toScreen spline zi) st).nearestZoneSpline =
      st.nearestZoneSpline ∧
    (l.foldl (segmentStep mousePos toScreen spline zi) st).claims = st.claims := by
  induction l generalizing st with
  | nil =>
      refine ⟨?_, rfl, rfl, rfl⟩
      rw [List.map_nil, List.minimum_nil]
      exact (min_eq_left le_top).symm
  | cons si l ih =>
      rw [List.foldl_cons, List.map_cons, List.minimum_cons, coe_eq_toProx]
      by_cases h : toProx (segmentProxVal mousePos toScreen spline si) <
          st.bestSegmentProximity
      · rw [segmentStep_pos mousePos toScreen spline zi st si h]
        obtain ⟨h1, h2, h3, h4⟩ := ih _
        refine ⟨?_, h2, h3, h4⟩
        rw [h1]
        rw [← min_assoc]
        rw [min_eq_right (le_of_lt h)]
      · rw [segmentStep_neg mousePos toScreen spline zi st si h]
        obtain ⟨h1, h2, h3, h4⟩ := ih st
        refine ⟨?_, h2, h3, h4⟩
        rw [h1]
        rw [← min_assoc]
        rw [min_eq_left (not_lt.mp h)]

theorem minimum_append (l1 l2 : List ℚ) :
    (l1 ++ l2).minimum = min l1.minimum l2.minimum := by
  induction l1 with
  | nil =>
      rw [List.nil_append, List.minimum_nil]
      exact (min_eq_right le_top).symm
  | cons a l ih =>
      rw [List.cons_append, List.minimum_cons, List.minimum_cons, ih, min_assoc]

theorem zoneStep_components (mousePos : ℚ × ℚ) (toScreen : ℚ × ℚ → ℚ × ℚ)
    (imageMousePos : ℚ × ℚ) (contains : Spline → ℚ × ℚ → Bool)
    (st : ZoneUpdateResult) (z : Nat × Spline) :
    (zoneStep mousePos toScreen imageMousePos contains st z).bestVertexProximity =
      min st.bestVertexProximity ((z.2.map fun v => sqDist mousePos (toScreen v)).minimum) ∧
    (zoneStep mousePos toScreen imageMousePos contains st z).bestSegmentProximity =
      min st.bestSegmentProximity
        (((List.range z.2.length).map fun si =>
          segmentProxVal mousePos toScreen z.2 si).minimum) ∧
    (zoneStep mousePos toScreen imageMousePos contains st z).nearestZoneSpline =
      (if st.nearestZoneSpline.isNone && contains z.2 imageMousePos then some z.1
        else st.nearestZoneSpline) ∧
    (zoneStep mousePos toScreen imageMousePos contains st z).claims = st.claims := by
  rw [zoneStep]
  set st1 := if st.nearestZoneSpline.isNone && contains z.2 imageMousePos then
    { st with nearestZoneSpline := some z.1 } else st with hst1
  have h1v : st1.bestVertexProximity = st.bestVertexProximity := by
    rw [hst1]; split <;> rfl
  have h1s : st1.bestSegmentProximity = st.bestSegmentProximity := by
    rw [hst1]; split <;> rfl
  have h1z : st1.nearestZoneSpline =
      (if st.nearestZoneSpline.isNone && contains z.2 imageMousePos then some z.1
        else st.nearestZoneSpline) := by
    rw [hst1]; split <;> rfl
  have h1c : st1.claims = st.claims := by
    rw [hst1]; split <;> rfl
  obtain ⟨hv1, hv2, hv3, hv4⟩ := vertexStep_foldl mousePos toScreen z.1 z.2.enum st1
  obtain ⟨hs1, hs2, hs3, hs4⟩ := segmentStep_foldl mousePos toScreen z.2 z.1
    (List.range z.2.length) (z.2.enum.foldl (vertexStep mousePos toScreen z.1) st1)
  have henum : (z.2.enum.map fun p => sqDist mousePos (toScreen p.2)) =
      z.2.map fun v => sqDist mousePos (toScreen v) := by
    rw [show (fun p : Nat × (ℚ × ℚ) => sqDist mousePos (toScreen p.2)) =
      (fun v : ℚ × ℚ => sqDist mousePos (toScreen v)) ∘ Prod.snd from rfl]
    rw [← List.map_map, List.enum_map_snd]
  refine ⟨?_, ?_, ?_, ?_⟩
  · rw [hs2, hv1, h1v, henum]
  · rw [hs1, hv2, h1s]
  · rw [hs3, hv3, h1z]
  · rw [hs4, hv4, h1c]

/-- All vertex proximities (squared screen distances) of a list of
indexed zones, in scan order. -/
def allVertexProx (mousePos : ℚ × ℚ) (toScreen : ℚ × ℚ → ℚ × ℚ)
    (l : List (Nat × Spline)) : List ℚ :=
  l.flatMap fun z => z.2.map fun v => sqDist mousePos (toScreen v)

/-- All segment proximities of a list of indexed zones, in scan order. -/
def allSegmentProx (mousePos : ℚ × ℚ) (toScreen : ℚ × ℚ → ℚ × ℚ)
    (l : List (Nat × Spline)) : List ℚ :=
  l.flatMap fun z => (List.range z.2.length).map fun si =>
    segmentProxVal mousePos toScreen z.2 si

theorem allVertexProx_cons (mousePos : ℚ × ℚ) (toScreen : ℚ × ℚ → ℚ × ℚ)
    (z : Nat × Spline) (l : List (Nat × Spline)) :
    allVertexProx mousePos toScreen (z :: l) =
      (z.2.map fun v => sqDist mousePos (toScreen v)) ++ allVertexProx mousePos toScreen l := by
  rw [allVertexProx, allVertexProx, List.flatMap_cons]

theorem allSegmentProx_cons (mousePos : ℚ × ℚ) (toScreen : ℚ × ℚ → ℚ × ℚ)
    (z : Nat × Spline) (l : List (Nat × Spline)) :
    allSegmentProx mousePos toScreen (z :: l) =
      ((List.range z.2.length).map fun si => segmentProxVal mousePos toScreen z.2 si) ++
        allSegmentProx mousePos toScreen l := by
  rw [allSegmentProx, allSegmentProx, List.flatMap_cons]

theorem zoneStep_foldl (mousePos : ℚ × ℚ) (toScreen : ℚ × ℚ → ℚ × ℚ)
    (imageMousePos : ℚ × ℚ) (contains : Spline → ℚ × ℚ → Bool)
    (l : List (Nat × Spline)) (st : ZoneUpdateResult) :
    (l.foldl (zoneStep mousePos toScreen imageMousePos contains) st).bestVertexProximity =
      min st.bestVertexProximity (allVertexProx mousePos toScreen l).minimum ∧
    (l.foldl (zoneStep mousePos toScreen imageMousePos contains) st).bestSegmentProximity =
      min st.bestSegmentProximity (allSegmentProx mousePos toScreen l).minimum ∧
    (l.foldl (zoneStep mousePos toScreen imageMousePos contains) st).nearestZoneSpline =
      st.nearestZoneSpline.or
        ((l.find? fun z => contains z.2 imageMousePos).map Prod.fst) ∧
    (l.foldl (zoneStep mousePos toScreen imageMousePos contains) st).claims = st.claims := by
  induction l generalizing st with
  | nil =>
      refine ⟨?_, ?_, ?_, rfl⟩
      · rw [allVertexProx, List.flatMap_nil, List.minimum_nil]
        exact (min_eq_left le_top).symm
      · rw [allSegmentProx, List.flatMap_nil, List.minimum_nil]
        exact (min_eq_left le_top).symm
      · simp
  | cons z l ih =>
      rw [List.foldl_cons]
      obtain ⟨hz1, hz2, hz3, hz4⟩ :=
        zoneStep_components mousePos toScreen imageMousePos contains st z
      obtain ⟨hi1, hi2, hi3, hi4⟩ :=
        ih (zoneStep mousePos toScreen imageMousePos contains st z)
      refine ⟨?_, ?_, ?_, ?_⟩
      · rw [hi1, hz1, allVertexProx_cons, minimum_append, ← min_assoc]
      · rw [hi2, hz2, allSegmentProx_cons, minimum_append, ← min_assoc]
      · rw [hi3, hz3]
        cases hnz : st.nearestZoneSpline with
        | some a => simp
        | none =>
            cases hc : contains z.2 imageMousePos with
            | true =>
                have hfind : List.find? (fun w : Nat × Spline => contains w.2 imageMousePos)
                    (z :: l) = some z := by
                  rw [List.find?_cons]
                  simp [hc]
                rw [hfind]
                simp
            | false =>
                have hfind : List.find? (fun w : Nat × Spline => contains w.2 imageMousePos)
                    (z :: l) =
                    List.find? (fun w : Nat × Spline => contains w.2 imageMousePos) l := by
                  rw [List.find?_cons]
                  simp [hc]
                rw [hfind]
                simp
      · rw [hi4, hz4]

theorem flatMap_map_comp {α β γ : Type} (f : α → β) (g : β → List γ) (l : List α) :
    (l.map f).flatMap g = l.flatMap fun a => g (f a) := by
  induction l with
  | nil => rfl
  | cons a l ih => rw [List.map_cons, List.flatMap_cons, List.flatMap_cons, ih]

theorem find?_isSome_eq_any {α : Type} (p : α → Bool) (l : List α) :
    (l.find? p).isSome = l.any p := by
  induction l with
  | nil => rfl
  | cons a l ih =>
      rw [List.find?_cons, List.any_cons]
      cases h : p a
      · rw [ih]
        simp
      · simp

theorem allVertexProx_enum (mousePos : ℚ × ℚ) (toScreen : ℚ × ℚ → ℚ × ℚ)
    (zones : List Spline) :
    allVertexProx mousePos toScreen zones.enum =
      zones.flatMap fun s => s.map fun v => sqDist mousePos (toScreen v) := by
  rw [allVertexProx, show zones.enum = zones.enum from rfl]
  rw [← List.enum_map_snd zones, flatMap_map_comp]
  rw [List.enum_map_snd]

theorem allSegmentProx_enum (mousePos : ℚ × ℚ) (toScreen : ℚ × ℚ → ℚ × ℚ)
    (zones : List Spline) :
    allSegmentProx mousePos toScreen zones.enum =
      zones.flatMap fun s => (List.range s.length).map fun si =>
        segmentProxVal mousePos toScreen s si := by
  rw [allSegmentProx, ← List.enum_map_snd zones, flatMap_map_comp]
  rw [List.enum_map_snd]

theorem any_map_comp {α β : Type} (f : α → β) (p : β → Bool) (l : List α) :
    (l.map f).any p = l.any fun a => p (f a) := by
  induction l with
  | nil => rfl
  | cons a l ih => rw [List.map_cons, List.any_cons, List.any_cons, ih]

theorem enum_any_snd (zones : List Spline) (p : Spline → Bool) :
    (zones.enum.any fun z => p z.2) = zones.any p := by
  conv_rhs => rw [← List.enum_map_snd zones]
  rw [any_map_comp]

/-- C2: one proximity update of the default handler registers the
nearest-vertex claim at priority 1 with the minimum on-screen vertex
distance over all zones, the nearest-segment claim at priority 0 with the
minimum on-screen segment distance, and — exactly when the pointer lies
inside some zone polygon — the zone-interior claim at priority -1 whose
distance is the minimum of the two best proximities; the remembered
interior zone is the first zone in iteration order whose polygon contains
the pointer. -/
theorem onProximityUpdate_claims_spec (zones : List Spline) (mousePos : ℚ × ℚ)
    (toScreen fromScreen : ℚ × ℚ → ℚ × ℚ) (contains : Spline → ℚ × ℚ → Bool) :
    (onProximityUpdate zones mousePos toScreen fromScreen contains).bestVertexProximity =
      (zones.flatMap fun s => s.map fun v => sqDist mousePos (toScreen v)).minimum ∧
    (onProximityUpdate zones mousePos toScreen fromScreen contains).bestSegmentProximity =
      (zones.flatMap fun s => (List.range s.length).map fun si =>
        segmentProxVal mousePos toScreen s si).minimum ∧
    (onProximityUpdate zones mousePos toScreen fromScreen contains).nearestZoneSpline =
      (zones.enum.find? fun z => contains z.2 (fromScreen mousePos)).map Prod.fst ∧
    (onProximityUpdate zones mousePos toScreen fromScreen contains).claims =
      [⟨vertexProximityId,
          (onProximityUpdate zones mousePos toScreen fromScreen contains).bestVertexProximity,
          1⟩,
        ⟨segmentProximityId,
          (onProximityUpdate zones mousePos toScreen fromScreen contains).bestSegmentProximity,
          0⟩] ++
      (if zones.any fun s => contains s (fromScreen mousePos) then
        [⟨zoneAreaProximityId,
          min (onProximityUpdate zones mousePos toScreen fromScreen contains).bestVertexProximity
            (onProximityUpdate zones mousePos toScreen fromScreen contains).bestSegmentProximity,
          -1⟩]
      else []) := by
  obtain ⟨h1, h2, h3, h4⟩ := zoneStep_foldl mousePos toScreen (fromScreen mousePos) contains
    zones.enum resetState
  have hb1 : (zones.enum.foldl (zoneStep mousePos toScreen (fromScreen mousePos) contains)
      resetState).bestVertexProximity = (allVertexProx mousePos toScreen zones.enum).minimum := by
    rw [h1]
    exact min_eq_right le_top
  have hb2 : (zones.enum.foldl (zoneStep mousePos toScreen (fromScreen mousePos) contains)
      resetState).bestSegmentProximity =
      (allSegmentProx mousePos toScreen zones.enum).minimum := by
    rw [h2]
    exact min_eq_right le_top
  have hb3 : (zones.enum.foldl (zoneStep mousePos toScreen (fromScreen mousePos) contains)
      resetState).nearestZoneSpline =
      (zones.enum.find? fun z => contains z.2 (fromScreen mousePos)).map Prod.fst := by
    rw [h3]
    rfl
  have hb4 : (zones.enum.foldl (zoneStep mousePos toScreen (fromScreen mousePos) contains)
      resetState).claims = [] := h4
  have hcond : ((zones.enum.foldl (zoneStep mousePos toScreen (fromScreen mousePos) contains)
      resetState).nearestZoneSpline).isSome =
      (zones.any fun s => contains s (fromScreen mousePos)) := by
    rw [hb3, Option.isSome_map', find?_isSome_eq_any]
    exact enum_any_snd zones fun s => contains s (fromScreen mousePos)
  have hunfold : onProximityUpdate zones mousePos toScreen fromScreen contains =
      (if ((zones.enum.foldl (zoneStep mousePos toScreen (fromScreen mousePos) contains)
          resetState).nearestZoneSpline).isSome then
        { zones.enum.foldl (zoneStep mousePos toScreen (fromScreen mousePos) contains)
            resetState with
          claims := (zones.enum.foldl (zoneStep mousePos toScreen (fromScreen mousePos)
              contains) resetState).claims ++
            [⟨vertexProximityId, (zones.enum.foldl (zoneStep mousePos toScreen
              (fromScreen mousePos) contains) resetState).bestVertexProximity, 1⟩] ++
            [⟨segmentProximityId, (zones.enum.foldl (zoneStep mousePos toScreen
              (fromScreen mousePos) contains) resetState).bestSegmentProximity, 0⟩] ++
            [⟨zoneAreaProximityId,
              min (zones.enum.foldl (zoneStep mousePos toScreen (fromScreen mousePos)
                  contains) resetState).bestVertexProximity
                (zones.enum.foldl (zoneStep mousePos toScreen (fromScreen mousePos)
                  contains) resetState).bestSegmentProximity, -1⟩] }
      else
        { zones.enum.foldl (zoneStep mousePos toScreen (fromScreen mousePos) contains)
            resetState with
          claims := (zones.enum.foldl (zoneStep mousePos toScreen (fromScreen mousePos)
              contains) resetState).claims ++
            [⟨vertexProximityId, (zones.enum.foldl (zoneStep mousePos toScreen
              (fromScreen mousePos) contains) resetState).bestVertexProximity, 1⟩] ++
            [⟨segmentProximityId, (zones.enum.foldl (zoneStep mousePos toScreen
              (fromScreen mousePos) contains) resetState).bestSegmentProximity, 0⟩] }) := rfl
  rw [hunfold, hcond]
  cases hany : zones.any fun s => contains s (fromScreen mousePos) with
  | true =>
      rw [if_pos rfl]
      refine ⟨?_, ?_, ?_, ?_⟩
      · rw [show ({ zones.enum.foldl (zoneStep mousePos toScreen (fromScreen mousePos)
          contains) resetState with claims := _ } : ZoneUpdateResult).bestVertexProximity =
          (zones.enum.foldl (zoneStep mousePos toScreen (fromScreen mousePos) contains)
            resetState).bestVertexProximity from rfl]
        rw [hb1, allVertexProx_enum]
      · rw [show ({ zones.enum.foldl (zoneStep mousePos toScreen (fromScreen mousePos)
          contains) resetState with claims := _ } : ZoneUpdateResult).bestSegmentProximity =
          (zones.enum.foldl (zoneStep mousePos toScreen (fromScreen mousePos) contains)
            resetState).bestSegmentProximity from rfl]
        rw [hb2, allSegmentProx_enum]
      · exact hb3
      · rw [show ({ zones.enum.foldl (zoneStep mousePos toScreen (fromScreen mousePos)
          contains) resetState with claims := (zones.enum.foldl (zoneStep mousePos toScreen
            (fromScreen mousePos) contains) resetState).claims ++ _ ++ _ ++ _ } :
            ZoneUpdateResult).claims =
          (zones.enum.foldl (zoneStep mousePos toScreen (fromScreen mousePos) contains)
            resetState).claims ++ _ ++ _ ++ _ from rfl]
        rw [hb4]
        simp
  | false =>
      rw [if_neg (by simp)]
      refine ⟨?_, ?_, ?_, ?_⟩
      · rw [show ({ zones.enum.foldl (zoneStep mousePos toScreen (fromScreen mousePos)
          contains) resetState with claims := _ } : ZoneUpdateResult).bestVertexProximity =
          (zones.enum.foldl (zoneStep mousePos toScreen (fromScreen mousePos) contains)
            resetState).bestVertexProximity from rfl]
        rw [hb1, allVertexProx_enum]
      · rw [show ({ zones.enum.foldl (zoneStep mousePos toScreen (fromScreen mousePos)
          contains) resetState with claims := _ } : ZoneUpdateResult).bestSegmentProximity =
          (zones.enum.foldl (zoneStep mousePos toScreen (fromScreen mousePos) contains)
            resetState).bestSegmentProximity from rfl]
        rw [hb2, allSegmentProx_enum]
      · exact hb3
      · rw [show ({ zones.enum.foldl (zoneStep mousePos toScreen (fromScreen mousePos)
          contains) resetState with claims := (zones.enum.foldl (zoneStep mousePos toScreen
            (fromScreen mousePos) contains) resetState).claims ++ _ ++ _ } :
            ZoneUpdateResult).claims =
          (zones.enum.foldl (zoneStep mousePos toScreen (fromScreen mousePos) contains)
            resetState).claims ++ _ ++ _ from rfl]
        rw [hb4]
        simp

/-- C2 counterexample: with one triangular zone and the pointer exactly on
a vertex of it, the vertex claim (same distance, higher priority) beats
the interior claim — yet the zone-interior claim is still registered this
cycle.  The claim's "registered only when ... no edge/vertex claim beats
it" condition is thus false of the code: registration is unconditional on
containment; only leadership is lost. -/
theorem interior_claim_registered_even_when_beaten :
    (onProximityUpdate [[(0, 0), (10, 0), (0, 10)]] (0, 0) id id fun _ _ => true).claims =
      [⟨vertexProximityId, some 0, 1⟩, ⟨segmentProximityId, some 0, 0⟩,
        ⟨zoneAreaProximityId, some 0, -1⟩] ∧
    leader (onProximityUpdate [[(0, 0), (10, 0), (0, 10)]]
        (0, 0) id id fun _ _ => true).claims =
      some ⟨vertexProximityId, some 0, 1⟩ := by
  obtain ⟨h1, h2, h3, h4⟩ := onProximityUpdate_claims_spec [[(0, 0), (10, 0), (0, 10)]]
    (0, 0) id id fun _ _ => true
  have hv : (([[((0 : ℚ), (0 : ℚ)), (10, 0), (0, 10)]] : List Spline).flatMap
      fun s => s.map fun v => sqDist (0, 0) (id v)).minimum = (some 0 : Proximity) := by
    norm_num [sqDist, List.minimum_cons, List.flatMap_cons]
    rfl
  have hs : (([[((0 : ℚ), (0 : ℚ)), (10, 0), (0, 10)]] : List Spline).flatMap
      fun s => (List.range s.length).map fun si =>
        segmentProxVal (0, 0) id s si).minimum = (some 0 : Proximity) := by
    norm_num [segmentProxVal, pointAndLineSegment, sqDist, List.minimum_cons,
      List.flatMap_cons, List.range_succ]
    rfl
  rw [hv] at h1
  rw [hs] at h2
  have hclaims : (onProximityUpdate [[(0, 0), (10, 0), (0, 10)]]
      (0, 0) id id fun _ _ => true).claims =
      [⟨vertexProximityId, some 0, 1⟩, ⟨segmentProximityId, some 0, 0⟩,
        ⟨zoneAreaProximityId, some 0, -1⟩] := by
    rw [h4, h1, h2]
    rw [if_pos (by simp)]
    rw [min_self]
    rfl
  refine ⟨hclaims, ?_⟩
  rw [hclaims]
  decide

/- ===== ZoneDefaultInteraction.cpp : press / release hand-off ===== -/

/-- Mouse buttons as far as the handler cares. -/
inductive MouseButton where
  | left
  | right
  | middle
deriving DecidableEq, Repr

/-- The concrete handler occupying the default handler's chain slot. -/
inductive HandlerKind where
  | defaultInteraction
  | zoneCreation
  | vertexDrag
  | zoneDrag
deriving DecidableEq, Repr

/-- Chain and capture state observed by the press/release handlers:
which handler occupies the slot, whether input is captured
(`InteractionState::captured`), whether the drag handler is the active
one (`DragHandler::isActive`), whether the watcher saw a significant drag
(`DragWatcher::haveSignificantDrag`), whether the current event was
accepted, and the position of the last press. -/
structure ChainState where
  handler : HandlerKind
  captured : Bool
  dragHandlerActive : Bool
  significantDrag : Bool
  eventAccepted : Bool
  pressPos : Option (ℚ × ℚ)
deriving DecidableEq, Repr

/-- Embedding of `ZoneDefaultInteraction::onMousePressEvent`
(ZoneDefaultInteraction.cpp lines 253-298): nothing while captured; on a
zone-area lead with a configured move modifier, hand off to the
whole-zone drag handler; otherwise, for the left button only, a vertex
lead or a segment lead hands off to the vertex-drag handler (the segment
case after splitting the segment).  `ldr` is the claim id of the current
proximity leader. -/
def onMousePressEventDefault (ldr : Option Nat) (moveModifierHeld : Bool)
    (button : MouseButton) (st : ChainState) : ChainState :=
  if st.captured then st
  else if ldr = some zoneAreaProximityId ∧ moveModifierHeld then
    { st with handler := HandlerKind.zoneDrag, eventAccepted := true }
  else if button ≠ MouseButton.left then st
  else if ldr = some vertexProximityId then
    { st with handler := HandlerKind.vertexDrag, eventAccepted := true }
  else if ldr = some segmentProximityId then
    { st with handler := HandlerKind.vertexDrag, eventAccepted := true }
  else st

/-- Embedding of `ZoneDefaultInteraction::onMouseReleaseEvent`
(ZoneDefaultInteraction.cpp lines 300-317): for a left-button release
while the interaction is captured by the active drag handler and no
significant drag has been seen, the default handler replaces itself with
the zone-creation handler and accepts the event. -/
def onMouseReleaseEventDefault (button : MouseButton) (st : ChainState) : ChainState :=
  if button ≠ MouseButton.left then st
  else if !st.captured then st
  else if !st.dragHandlerActive || st.significantDrag then st
  else { st with handler := HandlerKind.zoneCreation, eventAccepted := true }

/-- Modelled from the spec: the squared movement threshold below which a
press-release pair counts as a click (the end-to-end scenario of spec
section 8 uses a 3 px threshold). -/
def dragThresholdSq : ℚ := 9

/-- Modelled from the spec: the `DragHandler` follower captures the input
on a press no earlier handler consumed, resetting its `DragWatcher`. -/
def dragHandlerOnPress (pos : ℚ × ℚ) (st : ChainState) : ChainState :=
  if !st.eventAccepted && !st.captured then
    { st with captured := true, dragHandlerActive := true, significantDrag := false,
              pressPos := some pos }
  else st

/-- Modelled from the spec: the `DragWatcher` flags a significant drag
once the pointer has moved at least the threshold away from the press. -/
def dragWatcherOnMove (pos : ℚ × ℚ) (st : ChainState) : ChainState :=
  match st.pressPos with
  | some p => if dragThresholdSq ≤ sqDist p pos then { st with significantDrag := true } else st
  | none => st

/-- The chain state when the default interaction is freshly installed. -/
def initialChainState : ChainState :=
  { handler := HandlerKind.defaultInteraction, captured := false, dragHandlerActive := false,
    significantDrag := false, eventAccepted := false, pressPos := none }

/-- The end-to-end click scenario: a proximity update at the press
position, the press (default handler, then the drag follower), the
pointer possibly moving, and the left release. -/
def clickScenario (zones : List Spline) (toScreen fromScreen : ℚ × ℚ → ℚ × ℚ)
    (contains : Spline → ℚ × ℚ → Bool) (moveModifierHeld : Bool)
    (pressPos releasePos : ℚ × ℚ) : ChainState :=
  let r := onProximityUpdate zones pressPos toScreen fromScreen contains
  let ldr := (leader r.claims).map ProximityClaim.handler
  let st1 := onMousePressEventDefault ldr moveModifierHeld MouseButton.left initialChainState
  let st2 := dragHandlerOnPress pressPos st1
  let st3 := dragWatcherOnMove releasePos st2
  onMouseReleaseEventDefault MouseButton.left { st3 with eventAccepted := false }

/-- C7: a left-button release reaching the default handler while the drag
handler holds the capture with no significant drag replaces the default
handler by the zone-creation handler and consumes the event (any other
button leaves the state untouched); end-to-end, with zero zones, a press
and release at (10, 10) with sub-threshold movement ends with the
zone-creation handler installed and the release consumed. -/
theorem release_hands_off_to_zone_creation (st : ChainState)
    (hcap : st.captured = true) (hact : st.dragHandlerActive = true)
    (hdrag : st.significantDrag = false) :
    onMouseReleaseEventDefault MouseButton.left st =
      { st with handler := HandlerKind.zoneCreation, eventAccepted := true } ∧
    (∀ b : MouseButton, b ≠ MouseButton.left → onMouseReleaseEventDefault b st = st) ∧
    (∀ toScreen fromScreen : ℚ × ℚ → ℚ × ℚ, ∀ contains : Spline → ℚ × ℚ → Bool,
      (clickScenario [] toScreen fromScreen contains false (10, 10) (10, 10)).handler =
        HandlerKind.zoneCreation ∧
      (clickScenario [] toScreen fromScreen contains false (10, 10) (10, 10)).eventAccepted =
        true) := by
  refine ⟨?_, ?_, ?_⟩
  · rw [onMouseReleaseEventDefault]
    rw [if_neg (by simp), if_neg (by rw [hcap]; simp), if_neg (by rw [hact, hdrag]; simp)]
  · intro b hb
    rw [onMouseReleaseEventDefault, if_pos hb]
  · intro toScreen fromScreen contains
    have hscen : clickScenario [] toScreen fromScreen contains false (10, 10) (10, 10) =
        { handler := HandlerKind.zoneCreation, captured := true, dragHandlerActive := true,
          significantDrag := false, eventAccepted := true, pressPos := some (10, 10) } := by
      rw [clickScenario]
      have hprox : onProximityUpdate [] (10, 10) toScreen fromScreen contains =
          { resetState with claims := [⟨vertexProximityId, ⊤, 1⟩, ⟨segmentProximityId, ⊤, 0⟩] } := by
        rw [onProximityUpdate]
        rfl
      rw [hprox]
      have hldr : leader [(⟨vertexProximityId, ⊤, 1⟩ : ProximityClaim),
          ⟨segmentProximityId, ⊤, 0⟩] = none := by
        decide
      rw [show ({ resetState with claims := [⟨vertexProximityId, ⊤, 1⟩,
          ⟨segmentProximityId, ⊤, 0⟩] } : ZoneUpdateResult).claims =
          [(⟨vertexProximityId, ⊤, 1⟩ : ProximityClaim), ⟨segmentProximityId, ⊤, 0⟩] from rfl]
      rw [hldr]
      rw [show (Option.map ProximityClaim.handler none) = none from rfl]
      have hpress : onMousePressEventDefault none false MouseButton.left initialChainState =
          initialChainState := by
        rw [onMousePressEventDefault]
        rw [if_neg (by rw [initialChainState]; simp)]
        rw [if_neg (by simp)]
        rw [if_neg (by simp)]
        rw [if_neg (by simp)]
        rw [if_neg (by simp)]
      rw [hpress]
      have hgrab : dragHandlerOnPress (10, 10) initialChainState =
          { initialChainState with
            captured := true
            dragHandlerActive := true
            significantDrag := false
            pressPos := some (10, 10) } := by
        rw [dragHandlerOnPress]
        rw [if_pos (by rw [initialChainState]; simp)]
      rw [hgrab]
      have hmove : dragWatcherOnMove (10, 10)
          ({ initialChainState with
             captured := true
             dragHandlerActive := true
             significantDrag := false
             pressPos := some (10, 10) } : ChainState) =
          { initialChainState with
            captured := true
            dragHandlerActive := true
            significantDrag := false
            pressPos := some (10, 10) } := by
        rw [dragWatcherOnMove]
        norm_num [dragThresholdSq, sqDist]
      rw [hmove]
      rw [onMouseReleaseEventDefault]
      rw [if_neg (by simp), if_neg (by simp [initialChainState]),
        if_neg (by simp [initialChainState])]
    rw [hscen]
    exact ⟨rfl, rfl⟩

/-- Witness for C7 at a concrete chain state. -/
theorem release_hands_off_to_zone_creation_witness :
    onMouseReleaseEventDefault MouseButton.left
        ⟨HandlerKind.defaultInteraction, true, true, false, false, some (10, 10)⟩ =
      ⟨HandlerKind.zoneCreation, true, true, false, true, some (10, 10)⟩ :=
  (release_hands_off_to_zone_creation
    ⟨HandlerKind.defaultInteraction, true, true, false, false, some (10, 10)⟩
    rfl rfl rfl).1
